import Mathlib

/-!
Verification development for `indra/newview/llleapmotioncontroller.cpp`
(Leap Motion gesture-controller adapter of the Second Life viewer).

The C++ file is shallow-embedded below.  Machine floats (`F32`) are modelled
as rationals, `S32`/`int64_t` as `Int`, lists of hands and fingers as Lean
lists.  Host-application side effects (avatar flags, camera keys, chat,
gestures, log lines) are recorded as an explicit list of `HostAction`s, and every
list subscript and every division executed by the code is recorded as well,
so that in-bounds and nonzero-divisor properties can be stated about the
actual evaluations the code performs.
-/

/-- Component vector of the Leap SDK (`Leap::Vector`): three float fields. -/
structure LMVector where
  x : ℚ
  y : ℚ
  z : ℚ
  deriving DecidableEq

instance : Inhabited LMVector := ⟨⟨0, 0, 0⟩⟩

/-- Componentwise sum, used for the `pos += finger.tipPosition()` loops. -/
def LMVector.add (a b : LMVector) : LMVector :=
  ⟨a.x + b.x, a.y + b.y, a.z + b.z⟩

/-- Data of one `Leap::Finger` that the adapter reads. -/
structure Finger where
  direction : LMVector
  tipPosition : LMVector
  tipVelocity : LMVector
  deriving DecidableEq

instance : Inhabited Finger := ⟨⟨default, default, default⟩⟩

/-- Data of one `Leap::Hand` that the adapter reads. -/
structure Hand where
  fingers : List Finger
  palmPosition : LMVector
  palmNormal : LMVector
  sphereRadius : ℚ
  sphereCenter : LMVector
  deriving DecidableEq

instance : Inhabited Hand := ⟨⟨[], default, default, 0, default⟩⟩

/-- Data of one `Leap::Frame` that the adapter reads: an id and a hand list. -/
structure Frame where
  id : Int
  hands : List Hand
  deriving DecidableEq

/-- Modelled from the spec: `LLTimer` (`lltimer.h`, not under `src/`), one of
the "three interval timers used to rate-limit outbound actions".  The timer
stores its expiration instant; `checkExpirationAndReset` reports whether the
current time has reached it and, exactly when it has, re-arms the timer to
the current time plus the given interval. -/
structure LLTimer where
  expiry : ℚ
  deriving DecidableEq

/-- Modelled from the spec: expiry test and conditional re-arm of an
interval timer (see `LLTimer`). -/
def LLTimer.checkExpirationAndReset (t : LLTimer) (now expiration : ℚ) :
    Bool × LLTimer :=
  if t.expiry ≤ now then (true, ⟨now + expiration⟩) else (false, t)

/-- Avatar control-flag bits passed to `gAgent.setControlFlags` /
`clearControlFlags` (symbolic; their numeric values never matter here). -/
inductive ControlFlag where
  | AGENT_CONTROL_AT_POS
  | AGENT_CONTROL_FAST_AT
  | AGENT_CONTROL_UP_POS
  | AGENT_CONTROL_UP_NEG
  | AGENT_CONTROL_FAST_UP
  deriving DecidableEq

/-- Tags for the `llinfos` log lines the adapter emits. -/
inductive LogMsg where
  | initializedMsg
  | connectedMsg
  | disconnectedMsg
  | stopFlyingNoHands
  | stopFlying
  | startFlying
  | fingerInfo
  | resetTriggerOneFinger
  | sentGunfireChat
  | resetTrigger
  | resetTriggerHandPos
  | fingerDetail (i : Nat)
  | handSummary
  | palmInfo
  | ballInfo
  deriving DecidableEq

/-- Content of the chat messages the adapter formats (structured instead of
the literal string): the `"/2343 LM,..."` telemetry message and the
`"/2343 LM2 gunfire"` message. -/
inductive ChatMsg where
  | lmStream (palmPos palmNormal ballCenter : LMVector) (ballRadius : ℚ)
  | lmGunfire
  deriving DecidableEq

/-- Host-application side effects performed by the adapter.  `chatFormatted`
records that a chat message was built; `chatSend` would record an actual
`sendChatFromViewer` call (the source has that call commented out, so no
code below ever emits it). -/
inductive HostAction where
  | log (m : LogMsg)
  | setFlying (b : Bool)
  | setControlFlags (flags : List ControlFlag)
  | clearControlFlags (flags : List ControlFlag)
  | moveYaw (d : ℚ)
  | moveLeftNudge (d : ℚ)
  | unlockView
  | setOrbitLeftKey (r : ℚ)
  | setOrbitRightKey (r : ℚ)
  | setOrbitInKey (r : ℚ)
  | setOrbitOutKey (r : ℚ)
  | setOrbitUpKey (r : ℚ)
  | setOrbitDownKey (r : ℚ)
  | triggerGesture
  | chatFormatted (m : ChatMsg)
  | chatSend (m : ChatMsg)
  deriving DecidableEq

/-- Effects of one evaluation: host actions in order, the divisor of every
division the code executed, and every list subscript executed as a pair
(index, length of the indexed list). -/
structure ModeEffects where
  actions : List HostAction
  divs : List ℚ
  accesses : List (Nat × Nat)
  deriving DecidableEq

/-- State of the listener (`LLLMImpl` fields, the function-local `static`
counters of the mode functions, and the host's flying flag, which mode 0
both reads and writes). -/
structure SysState where
  mLMController : Bool
  mLMConnected : Bool
  mFrameAvailable : Bool
  mCurrentFrameID : Int
  mYawTimer : LLTimer
  mChatMsgTimer : LLTimer
  mGestureTimer : LLTimer
  sLMFlyingHysteresis : Int
  trigger_direction : Int
  last_num_fingers : Int
  agentFlying : Bool
  deriving DecidableEq

/-- Dead zone constant `LM_DEAD_ZONE = 20.f`. -/
def LM_DEAD_ZONE : ℚ := 20

/-- Camera orbit factor `LM_ORBIT_RATE_FACTOR = 80.f`. -/
def LM_ORBIT_RATE_FACTOR : ℚ := 80

/-- Yaw rate-limit interval `LLLEAP_YAW_INTERVAL = 0.075f`. -/
def LLLEAP_YAW_INTERVAL : ℚ := 3 / 40

/-- Chat rate-limit interval `LLLEAP_CHAT_MSG_INTERVAL = 0.200f`. -/
def LLLEAP_CHAT_MSG_INTERVAL : ℚ := 1 / 5

/-- Gesture rate-limit interval `LLLEAP_GESTURE_INTERVAL = 3.f`. -/
def LLLEAP_GESTURE_INTERVAL : ℚ := 3

/-- State after the `LLLMImpl` constructor ran and the function-local
statics were zero-initialized / initialized: controller allocated, not
connected, no frame, frame id 0, the three timers armed to their intervals,
`sLMFlyingHysteresis = 0`, `trigger_direction = -1`, `last_num_fingers = 0`. -/
def initialState : SysState where
  mLMController := true
  mLMConnected := false
  mFrameAvailable := false
  mCurrentFrameID := 0
  mYawTimer := ⟨LLLEAP_YAW_INTERVAL⟩
  mChatMsgTimer := ⟨LLLEAP_CHAT_MSG_INTERVAL⟩
  mGestureTimer := ⟨LLLEAP_GESTURE_INTERVAL⟩
  sLMFlyingHysteresis := 0
  trigger_direction := -1
  last_num_fingers := 0
  agentFlying := false

namespace LLLMImpl

/-- Embedding of `LLLMImpl::onInit`. -/
def onInit (s : SysState) : List HostAction × SysState :=
  ([HostAction.log LogMsg.initializedMsg], s)

/-- Embedding of `LLLMImpl::onConnect`. -/
def onConnect (s : SysState) : List HostAction × SysState :=
  ([HostAction.log LogMsg.connectedMsg],
   { s with mLMConnected := true, mCurrentFrameID := 0 })

/-- Embedding of `LLLMImpl::onDisconnect`. -/
def onDisconnect (s : SysState) : List HostAction × SysState :=
  ([HostAction.log LogMsg.disconnectedMsg], { s with mLMConnected := false })

/-- Embedding of `LLLMImpl::onFrame`: when connected and the delivered
frame's id differs from the stored one, record the id and raise the
frame-available flag; otherwise change nothing. -/
def onFrame (s : SysState) (frame : Frame) : SysState :=
  if s.mLMConnected = true then
    if frame.id ≠ s.mCurrentFrameID then
      { s with mCurrentFrameID := frame.id, mFrameAvailable := true }
    else s
  else s

/-- First section of the one-hand branch of `modeFlyingControlTest`: the
finger count switches flying on and off, with the `sLMFlyingHysteresis`
counter delaying the stop. -/
def flyOnOff (s : SysState) (num_fingers : Nat) (agent_is_flying : Bool) :
    List HostAction × SysState :=
  if num_fingers = 0 ∧ agent_is_flying = true then
    if s.sLMFlyingHysteresis > 0 then
      (([] : List HostAction),
       { s with sLMFlyingHysteresis := s.sLMFlyingHysteresis - 1 })
    else
      ([HostAction.log LogMsg.stopFlying, HostAction.setFlying false],
       { s with agentFlying := false })
  else if num_fingers > 2 ∧ agent_is_flying = false then
    ([HostAction.log LogMsg.startFlying, HostAction.setFlying true],
     { s with agentFlying := true, sLMFlyingHysteresis := 5 })
  else (([] : List HostAction), s)

/-- Second section of the one-hand branch of `modeFlyingControlTest` (the
`if (agent_is_flying)` body): sphere radius drives forward motion, palm
height drives up/down, palm normal drives yaw through the yaw timer. -/
def flyMotion (now : ℚ) (hand : Hand) (s1 : SysState) :
    List HostAction × SysState :=
  let actsR :=
    if hand.sphereRadius > 110 then
      [HostAction.setControlFlags
        [ControlFlag.AGENT_CONTROL_AT_POS, ControlFlag.AGENT_CONTROL_FAST_AT]]
    else if hand.sphereRadius > 85 then
      [HostAction.setControlFlags [ControlFlag.AGENT_CONTROL_AT_POS]]
    else
      [HostAction.clearControlFlags [ControlFlag.AGENT_CONTROL_AT_POS]]
  let actsH :=
    if hand.palmPosition.y > 260 then
      [HostAction.setControlFlags
        [ControlFlag.AGENT_CONTROL_UP_POS, ControlFlag.AGENT_CONTROL_FAST_UP]]
    else if hand.palmPosition.y > 200 then
      [HostAction.setControlFlags [ControlFlag.AGENT_CONTROL_UP_POS]]
    else if hand.palmPosition.y < 60 then
      [HostAction.setControlFlags
        [ControlFlag.AGENT_CONTROL_FAST_UP, ControlFlag.AGENT_CONTROL_UP_NEG]]
    else if hand.palmPosition.y < 120 then
      [HostAction.setControlFlags [ControlFlag.AGENT_CONTROL_UP_NEG]]
    else
      [HostAction.clearControlFlags
        [ControlFlag.AGENT_CONTROL_FAST_UP, ControlFlag.AGENT_CONTROL_UP_POS,
         ControlFlag.AGENT_CONTROL_UP_NEG]]
  let cr := s1.mYawTimer.checkExpirationAndReset now LLLEAP_YAW_INTERVAL
  let actsY :=
    if cr.1 = true then
      if hand.palmNormal.x > 2/5 then [HostAction.moveYaw 1]
      else if hand.palmNormal.x < -(2/5) then [HostAction.moveYaw (-1)]
      else []
    else []
  (actsR ++ actsH ++ actsY, { s1 with mYawTimer := cr.2 })

/-- Embedding of `LLLMImpl::modeFlyingControlTest` (mode 0): flying on/off
with the `sLMFlyingHysteresis` static, then (when the stale local
`agent_is_flying` read at entry was true) the flying-motion controls. -/
def modeFlyingControlTest (now : ℚ) (s : SysState) (hands : List Hand) :
    ModeEffects × SysState :=
  let agent_is_flying := s.agentFlying
  if hands.length = 0 ∧ agent_is_flying = true ∧ s.sLMFlyingHysteresis > 0 then
    let s1 := { s with sLMFlyingHysteresis := s.sLMFlyingHysteresis - 1 }
    if s1.sLMFlyingHysteresis = 0 then
      (⟨[HostAction.log LogMsg.stopFlyingNoHands, HostAction.setFlying false], [], []⟩,
       { s1 with agentFlying := false })
    else
      (⟨[], [], []⟩, s1)
  else if h1 : hands.length = 1 then
    let hand := hands.get ⟨0, by omega⟩
    let a1 := flyOnOff s hand.fingers.length agent_is_flying
    let a2 :=
      if agent_is_flying = true then flyMotion now hand a1.2
      else (([] : List HostAction), a1.2)
    (⟨a1.1 ++ a2.1, [], [(0, hands.length)]⟩, a2.2)
  else
    (⟨[], [], []⟩, s)

/-- Embedding of `LLLMImpl::modeStreamDataToSL` (mode 1): with exactly one
hand and the chat timer expired, build the `"/2343 LM,..."` telemetry chat
message; the `sendChatFromViewer` call is commented out in the source, so
nothing is sent. -/
def modeStreamDataToSL (now : ℚ) (s : SysState) (hands : List Hand) :
    ModeEffects × SysState :=
  if h1 : hands.length = 1 then
    let cr := s.mChatMsgTimer.checkExpirationAndReset now LLLEAP_CHAT_MSG_INTERVAL
    if cr.1 = true then
      let hand := hands.get ⟨0, by omega⟩
      (⟨[HostAction.chatFormatted
          (ChatMsg.lmStream hand.palmPosition hand.palmNormal
            hand.sphereCenter hand.sphereRadius)],
        [], [(0, hands.length)]⟩,
       { s with mChatMsgTimer := cr.2 })
    else
      (⟨[], [], []⟩, { s with mChatMsgTimer := cr.2 })
  else
    (⟨[], [], []⟩, s)

/-- One-finger branch of `modeGestureDetection1`: possibly log the finger
data (the source truncates |z| into an `S32` before the comparisons) and
reset `trigger_direction`. -/
def gestureOneFinger (finger_list : List Finger)
    (hf : finger_list.length = 1) (s : SysState) : ModeEffects × SysState :=
  let finger := finger_list.get ⟨0, by omega⟩
  let finger_dir := finger.direction
  let abs_z_dir : Int := ⌊|finger_dir.z|⌋
  let actsLog :=
    if finger_dir.z < -(1/2) ∧ (abs_z_dir : ℚ) > |finger_dir.x| ∧
        (abs_z_dir : ℚ) > |finger_dir.y| then
      [HostAction.log LogMsg.fingerInfo]
    else []
  let ar :=
    if s.trigger_direction ≠ -1 then
      ([HostAction.log LogMsg.resetTriggerOneFinger],
       { s with trigger_direction := -1 })
    else (([] : List HostAction), s)
  (⟨actsLog ++ ar.1, [], [(0, finger_list.length)]⟩, ar.2)

/-- Two-finger (popgun) branch of `modeGestureDetection1`: when the barrel
finger points into the screen and the thumb is folded, a fast forward thumb
with an unfired trigger fires the gun (chat attempt, rate-limited by the
chat timer), and a fast backward thumb re-arms it; when the barrel check
fails, the trigger is re-armed. -/
def gestureTwoFinger (now : ℚ) (finger_list : List Finger)
    (hf : finger_list.length = 2) (s : SysState) : ModeEffects × SysState :=
  let barrel_finger := finger_list.get ⟨0, by omega⟩
  let barrel_finger_dir := barrel_finger.direction
  let abs_z_dir : ℚ := |barrel_finger_dir.z|
  if barrel_finger_dir.z < -(1/2) ∧ abs_z_dir > |barrel_finger_dir.x| ∧
      abs_z_dir > |barrel_finger_dir.y| then
    let thumb_finger := finger_list.get ⟨1, by omega⟩
    let thumb_finger_dir := thumb_finger.direction
    let thumb_finger_vel := thumb_finger.tipVelocity
    if thumb_finger_dir.x < barrel_finger_dir.x then
      if s.trigger_direction < 0 ∧ thumb_finger_vel.x > 50 ∧
          thumb_finger_vel.z < -50 then
        let cr := s.mChatMsgTimer.checkExpirationAndReset now
          LLLEAP_CHAT_MSG_INTERVAL
        if cr.1 = true then
          (⟨[HostAction.chatFormatted ChatMsg.lmGunfire,
             HostAction.log LogMsg.sentGunfireChat],
            [], [(0, finger_list.length), (1, finger_list.length)]⟩,
           { s with mChatMsgTimer := cr.2, trigger_direction := 1 })
        else
          (⟨[], [], [(0, finger_list.length), (1, finger_list.length)]⟩,
           { s with mChatMsgTimer := cr.2 })
      else if s.trigger_direction > 0 ∧ thumb_finger_vel.x < -50 ∧
          thumb_finger_vel.z > 50 then
        (⟨[HostAction.log LogMsg.resetTrigger],
          [], [(0, finger_list.length), (1, finger_list.length)]⟩,
         { s with trigger_direction := -1 })
      else
        (⟨[], [], [(0, finger_list.length), (1, finger_list.length)]⟩, s)
    else
      (⟨[], [], [(0, finger_list.length), (1, finger_list.length)]⟩, s)
  else
    if s.trigger_direction ≠ -1 then
      (⟨[HostAction.log LogMsg.resetTriggerHandPos],
        [], [(0, finger_list.length)]⟩,
       { s with trigger_direction := -1 })
    else
      (⟨[], [], [(0, finger_list.length)]⟩, s)

/-- Five-finger branch of `modeGestureDetection1`: trigger the `"/overhere"`
Second Life gesture, rate-limited by the gesture timer. -/
def gestureFiveFinger (now : ℚ) (s : SysState) : ModeEffects × SysState :=
  let cr := s.mGestureTimer.checkExpirationAndReset now LLLEAP_GESTURE_INTERVAL
  if cr.1 = true then
    (⟨[HostAction.triggerGesture], [], []⟩, { s with mGestureTimer := cr.2 })
  else
    (⟨[], [], []⟩, { s with mGestureTimer := cr.2 })

/-- Embedding of `LLLMImpl::modeGestureDetection1` (mode 2): the popgun
trigger state machine on `trigger_direction` (1 and 2 finger branches), the
hand-wave gesture on five fingers held across two consecutive one-hand
evaluations, and the `last_num_fingers` static update. -/
def modeGestureDetection1 (now : ℚ) (s : SysState) (hands : List Hand) :
    ModeEffects × SysState :=
  if h1 : hands.length = 1 then
    let hand := hands.get ⟨0, by omega⟩
    let finger_list := hand.fingers
    let num_fingers := finger_list.length
    let r : ModeEffects × SysState :=
      if hf1 : num_fingers = 1 then gestureOneFinger finger_list hf1 s
      else if hf2 : num_fingers = 2 then gestureTwoFinger now finger_list hf2 s
      else if num_fingers = 5 ∧ (num_fingers : Int) = s.last_num_fingers then
        gestureFiveFinger now s
      else
        (⟨[], [], []⟩, s)
    (⟨r.1.actions, r.1.divs, (0, hands.length) :: r.1.accesses⟩,
     { r.2 with last_num_fingers := (num_fingers : Int) })
  else
    (⟨[], [], []⟩, s)

/-- Camera-orbit section of `modeMoveAndCamTest1` (the two-finger case):
each axis of the average tip position outside the dead zone unlocks the
view and sets an orbit key at a rate divided by `LM_ORBIT_RATE_FACTOR`. -/
def camOrbit (pos : LMVector) : List HostAction × List ℚ :=
  let aX :=
    if pos.x < -LM_DEAD_ZONE then
      ([HostAction.unlockView,
        HostAction.setOrbitLeftKey ((|pos.x| - LM_DEAD_ZONE) / LM_ORBIT_RATE_FACTOR)],
       [LM_ORBIT_RATE_FACTOR])
    else if pos.x > LM_DEAD_ZONE then
      ([HostAction.unlockView,
        HostAction.setOrbitRightKey ((pos.x - LM_DEAD_ZONE) / LM_ORBIT_RATE_FACTOR)],
       [LM_ORBIT_RATE_FACTOR])
    else (([] : List HostAction), ([] : List ℚ))
  let aZ :=
    if pos.z < -LM_DEAD_ZONE then
      ([HostAction.unlockView,
        HostAction.setOrbitInKey ((|pos.z| - LM_DEAD_ZONE) / LM_ORBIT_RATE_FACTOR)],
       [LM_ORBIT_RATE_FACTOR])
    else if pos.z > LM_DEAD_ZONE then
      ([HostAction.unlockView,
        HostAction.setOrbitOutKey ((pos.z - LM_DEAD_ZONE) / LM_ORBIT_RATE_FACTOR)],
       [LM_ORBIT_RATE_FACTOR])
    else (([] : List HostAction), ([] : List ℚ))
  let aY :=
    if pos.y < -LM_DEAD_ZONE then
      ([HostAction.unlockView,
        HostAction.setOrbitUpKey ((|pos.y| - LM_DEAD_ZONE) / LM_ORBIT_RATE_FACTOR)],
       [LM_ORBIT_RATE_FACTOR])
    else if pos.y > LM_DEAD_ZONE then
      ([HostAction.unlockView,
        HostAction.setOrbitDownKey ((pos.y - LM_DEAD_ZONE) / LM_ORBIT_RATE_FACTOR)],
       [LM_ORBIT_RATE_FACTOR])
    else (([] : List HostAction), ([] : List ℚ))
  (aX.1 ++ aZ.1 ++ aY.1, aX.2 ++ aZ.2 ++ aY.2)

/-- Embedding of `LLLMImpl::modeMoveAndCamTest1` (mode 3): averages the
finger tip positions (dividing by the finger count before any count check),
then with one finger nudges/turns the avatar and with two fingers orbits the
camera through `camOrbit`. -/
def modeMoveAndCamTest1 (s : SysState) (hands : List Hand) :
    ModeEffects × SysState :=
  if h1 : hands.length = 1 then
    let hand := hands.get ⟨0, by omega⟩
    let finger_list := hand.fingers
    let num_fingers := finger_list.length
    let posSum : LMVector :=
      finger_list.foldl (fun (v : LMVector) f => v.add f.tipPosition) ⟨0, 0, 0⟩
    let pos : LMVector :=
      ⟨posSum.x / (num_fingers : ℚ), posSum.y / (num_fingers : ℚ),
       posSum.z / (num_fingers : ℚ)⟩
    let loopAccs := (List.range num_fingers).map (fun i => (i, num_fingers))
    let avgDivs : List ℚ := [(num_fingers : ℚ), (num_fingers : ℚ), (num_fingers : ℚ)]
    if num_fingers = 1 then
      let actsX :=
        if pos.x < -LM_DEAD_ZONE then [HostAction.moveLeftNudge 1]
        else if pos.x > LM_DEAD_ZONE then [HostAction.moveLeftNudge (-1)]
        else []
      let actsY :=
        if pos.y < -LM_DEAD_ZONE then [HostAction.moveYaw (-1)]
        else if pos.y > LM_DEAD_ZONE then [HostAction.moveYaw 1]
        else []
      (⟨actsX ++ actsY, avgDivs, (0, hands.length) :: loopAccs⟩, s)
    else if num_fingers = 2 then
      (⟨(camOrbit pos).1, avgDivs ++ (camOrbit pos).2,
        (0, hands.length) :: loopAccs⟩, s)
    else
      (⟨[], avgDivs, (0, hands.length) :: loopAccs⟩, s)
  else
    (⟨[], [], []⟩, s)

/-- Embedding of `LLLMImpl::modeDumpDebugInfo` (mode 411): logs per-finger
details and (only when at least one finger is present) the average tip
position and direction, then the palm and ball data. -/
def modeDumpDebugInfo (s : SysState) (hands : List Hand) :
    ModeEffects × SysState :=
  if h1 : hands.length = 1 then
    let hand := hands.get ⟨0, by omega⟩
    let finger_list := hand.fingers
    let num_fingers := finger_list.length
    let aF :=
      if num_fingers ≥ 1 then
        ((List.range num_fingers).map (fun i => HostAction.log (LogMsg.fingerDetail i))
           ++ [HostAction.log LogMsg.handSummary],
         ([(num_fingers : ℚ), (num_fingers : ℚ), (num_fingers : ℚ),
           (num_fingers : ℚ), (num_fingers : ℚ), (num_fingers : ℚ)] : List ℚ),
         (List.range num_fingers).map (fun i => (i, num_fingers)))
      else (([] : List HostAction), ([] : List ℚ), ([] : List (Nat × Nat)))
    (⟨aF.1 ++ [HostAction.log LogMsg.palmInfo, HostAction.log LogMsg.ballInfo],
      aF.2.1, (0, hands.length) :: aF.2.2⟩, s)
  else
    (⟨[], [], []⟩, s)

/-- Mode dispatch of `LLLMImpl::stepFrame`: the if/else chain on the
`LeapmotionTestMode` debug setting. -/
def dispatchMode (now : ℚ) (controller_mode : Int) (s : SysState)
    (hands : List Hand) : ModeEffects × SysState :=
  if controller_mode = 0 then modeFlyingControlTest now s hands
  else if controller_mode = 1 then modeStreamDataToSL now s hands
  else if controller_mode = 2 then modeGestureDetection1 now s hands
  else if controller_mode = 3 then modeMoveAndCamTest1 s hands
  else if controller_mode = 411 then modeDumpDebugInfo s hands
  else (⟨[], [], []⟩, s)

/-- Embedding of `LLLMImpl::stepFrame`: when the controller exists, a frame
is available and the device is connected, clear the frame-available flag and
dispatch the frame's hands to the selected mode; otherwise do nothing. -/
def stepFrame (now : ℚ) (controller_mode : Int) (s : SysState)
    (frame : Frame) : ModeEffects × SysState :=
  if s.mLMController = true ∧ s.mFrameAvailable = true ∧ s.mLMConnected = true then
    dispatchMode now controller_mode { s with mFrameAvailable := false } frame.hands
  else
    (⟨[], [], []⟩, s)

end LLLMImpl

/-- Modelled from the spec: the host application's startup state
(`llstartup.h`, not under `src/`); the adapter only ever compares it with
`STATE_STARTED`, so a few representative states suffice. -/
inductive EStartupState where
  | STATE_FIRST
  | STATE_LOGIN_SHOW
  | STATE_WORLD_INIT
  | STATE_STARTED
  deriving DecidableEq

namespace LLLeapMotionController

/-- Embedding of `LLLeapMotionController::stepFrame`: forward to the
implementation only when the implementation object exists and the host
startup state is `STATE_STARTED`. -/
def stepFrame (mController : Bool) (startupState : EStartupState) (now : ℚ)
    (controller_mode : Int) (s : SysState) (frame : Frame) :
    ModeEffects × SysState :=
  if mController = true ∧ EStartupState.STATE_STARTED = startupState then
    LLLMImpl.stepFrame now controller_mode s frame
  else
    (⟨[], [], []⟩, s)

end LLLeapMotionController

/-- One mode-dispatch evaluation input: host frame time, the value of the
`LeapmotionTestMode` debug setting, and the frame's hand list. -/
structure StepInput where
  now : ℚ
  mode : Int
  hands : List Hand
  deriving DecidableEq

/-- One mode-dispatch evaluation: the body of one processed device frame
(`stepFrame` past its gate). -/
def stepOn (i : StepInput) (s : SysState) : ModeEffects × SysState :=
  LLLMImpl.dispatchMode i.now i.mode s i.hands

/-- State reached after a sequence of mode-dispatch evaluations. -/
def stateAfter (s : SysState) : List StepInput → SysState
  | [] => s
  | i :: l => stateAfter (stepOn i s).2 l

/-- Evaluation emits a yaw turn from `modeFlyingControlTest` (mode 0). -/
def yawEventB (s : SysState) (i : StepInput) : Bool :=
  decide (i.mode = 0 ∧ (HostAction.moveYaw 1 ∈ (stepOn i s).1.actions ∨
    HostAction.moveYaw (-1) ∈ (stepOn i s).1.actions))

/-- Test for a formatted chat message among the emitted actions. -/
def HostAction.isChatFormatted : HostAction → Bool
  | HostAction.chatFormatted _ => true
  | _ => false

/-- Test for an actually sent chat message among the emitted actions. -/
def HostAction.isChatSend : HostAction → Bool
  | HostAction.chatSend _ => true
  | _ => false

/-- Test for a log-line action. -/
def HostAction.isLog : HostAction → Bool
  | HostAction.log _ => true
  | _ => false

/-- Evaluation makes a chat-message attempt: it builds one of the outbound
chat messages (the telemetry message of mode 1 or the gunfire message of
mode 2). -/
def chatEventB (s : SysState) (i : StepInput) : Bool :=
  (stepOn i s).1.actions.any HostAction.isChatFormatted

/-- Evaluation triggers the Second Life gesture (mode 2). -/
def gestureEventB (s : SysState) (i : StepInput) : Bool :=
  decide (HostAction.triggerGesture ∈ (stepOn i s).1.actions)

/-- Evaluation makes a gunfire chat attempt (mode 2). -/
def gunfireEventB (s : SysState) (i : StepInput) : Bool :=
  decide (i.mode = 2 ∧
    HostAction.chatFormatted ChatMsg.lmGunfire ∈ (stepOn i s).1.actions)

/-- Evaluation starts flight (mode 0, `gAgent.setFlying(TRUE)`). -/
def startEventB (s : SysState) (i : StepInput) : Bool :=
  decide (i.mode = 0 ∧ HostAction.setFlying true ∈ (stepOn i s).1.actions)

/-- Evaluation stops flight (mode 0, `gAgent.setFlying(FALSE)`). -/
def stopEventB (s : SysState) (i : StepInput) : Bool :=
  decide (i.mode = 0 ∧ HostAction.setFlying false ∈ (stepOn i s).1.actions)

/-- Hand-list shape of the two stop-flight conditions: no hands at all, or
exactly one hand that has no fingers. -/
def stopHands : List Hand → Bool
  | [] => true
  | [h] => h.fingers.isEmpty
  | _ => false

/-- Evaluation is a stop-condition evaluation of `modeFlyingControlTest`:
mode 0, the agent is flying, and the hands match a stop condition. -/
def stopCondB (s : SysState) (i : StepInput) : Bool :=
  decide (i.mode = 0 ∧ s.agentFlying = true ∧ stopHands i.hands = true)

/-- Number of stop-condition evaluations along a run. -/
def countStop (s : SysState) : List StepInput → Nat
  | [] => 0
  | i :: l => (if stopCondB s i then 1 else 0) + countStop (stepOn i s).2 l

/-- Per-evaluation stop-condition values along a run. -/
def stopPattern (s : SysState) : List StepInput → List Bool
  | [] => []
  | i :: l => stopCondB s i :: stopPattern (stepOn i s).2 l

/-- Longest run of consecutive `true`s, auxiliary accumulator form. -/
def maxRunAux : List Bool → Nat → Nat → Nat
  | [], cur, best => max cur best
  | b :: l, cur, best =>
    if b then maxRunAux l (cur + 1) (max (cur + 1) best) else maxRunAux l 0 best

/-- Longest run of consecutive `true`s in a boolean list. -/
def maxRun (l : List Bool) : Nat := maxRunAux l 0 0

/-- Some evaluation of the run moves `trigger_direction` back to -1 from a
different value (a popgun trigger reset). -/
def hasReset (s : SysState) : List StepInput → Bool
  | [] => false
  | i :: l =>
    (decide (s.trigger_direction ≠ -1 ∧
      ((stepOn i s).2).trigger_direction = -1)) || hasReset (stepOn i s).2 l

/-- All recorded list subscripts are in bounds. -/
def accessesOK (e : ModeEffects) : Bool :=
  e.accesses.all (fun p => decide (p.1 < p.2))

/-- Test hand with five (default) fingers, a mid-height palm, a palm normal
pointing hard left and a mid-size sphere. -/
def wFiveHand : Hand := ⟨List.replicate 5 default, ⟨0, 150, 0⟩, ⟨1, 0, 0⟩, 50, default⟩

/-- Test hand with three fingers. -/
def wThreeFingerHand : Hand := ⟨List.replicate 3 default, default, default, 0, default⟩

/-- Test hand with one finger. -/
def wOneFingerHand : Hand := ⟨[default], default, default, 0, default⟩

/-- Test hand with no fingers. -/
def wNoFingerHand : Hand := ⟨[], default, default, 0, default⟩

/-- Test hand in popgun pose: barrel finger into the screen, folded thumb
moving fast forward. -/
def wGunHand : Hand :=
  ⟨[⟨⟨0, 0, -1⟩, default, default⟩, ⟨⟨-1, 0, 0⟩, default, ⟨100, 0, -100⟩⟩],
   default, default, 0, default⟩

/-- Barrel check of the popgun: the first finger's direction points into
the screen (z below -0.5 and |z| the dominant component). -/
def barrelIntoScreen (fl : List Finger) : Bool :=
  match fl with
  | f :: _ =>
    decide (f.direction.z < -(1/2) ∧ |f.direction.z| > |f.direction.x| ∧
      |f.direction.z| > |f.direction.y|)
  | [] => false

/-- Thumb pulled back: the second finger's tip velocity has x below -50 and
z above 50. -/
def thumbPulledBack (fl : List Finger) : Bool :=
  match fl with
  | _ :: t :: _ => decide (t.tipVelocity.x < -50 ∧ t.tipVelocity.z > 50)
  | _ => false

/-- Fired timer checks report that the expiry instant has been reached. -/
theorem LLTimer.check_fst (t : LLTimer) (now e : ℚ) :
    (t.checkExpirationAndReset now e).1 = decide (t.expiry ≤ now) := by
  unfold LLTimer.checkExpirationAndReset
  split <;> simp_all

/-- Resulting timer of a check: re-armed when fired, untouched otherwise. -/
theorem LLTimer.check_snd (t : LLTimer) (now e : ℚ) :
    (t.checkExpirationAndReset now e).2 =
      if t.expiry ≤ now then ⟨now + e⟩ else t := by
  unfold LLTimer.checkExpirationAndReset
  split <;> simp_all

/-- A timer check never moves the expiry instant backwards (for a
nonnegative interval). -/
theorem LLTimer.check_expiry_mono (t : LLTimer) (now e : ℚ) (he : 0 ≤ e) :
    t.expiry ≤ ((t.checkExpirationAndReset now e).2).expiry := by
  unfold LLTimer.checkExpirationAndReset
  split <;> simp
  linarith

/-- Mode 3 never changes any state. -/
theorem modeMoveAndCamTest1_state (s : SysState) (hands : List Hand) :
    (LLLMImpl.modeMoveAndCamTest1 s hands).2 = s := by
  simp only [LLLMImpl.modeMoveAndCamTest1]
  split_ifs <;> rfl

/-- Mode 411 never changes any state. -/
theorem modeDumpDebugInfo_state (s : SysState) (hands : List Hand) :
    (LLLMImpl.modeDumpDebugInfo s hands).2 = s := by
  simp only [LLLMImpl.modeDumpDebugInfo]
  split_ifs <;> rfl

/-- Section `flyOnOff` can change only the hysteresis counter and the
flying flag. -/
theorem flyOnOff_state (s : SysState) (n : Nat) (f : Bool) :
    ∃ hy fl, (LLLMImpl.flyOnOff s n f).2 =
      { s with sLMFlyingHysteresis := hy, agentFlying := fl } := by
  simp only [LLLMImpl.flyOnOff]
  split_ifs <;> exact ⟨_, _, rfl⟩

/-- Section `flyMotion` changes only the yaw timer, by one timer check. -/
theorem flyMotion_state (now : ℚ) (hand : Hand) (s1 : SysState) :
    (LLLMImpl.flyMotion now hand s1).2 =
      { s1 with mYawTimer :=
          (s1.mYawTimer.checkExpirationAndReset now LLLEAP_YAW_INTERVAL).2 } := rfl

/-- Mode 0 can change only the hysteresis counter, the flying flag and the
yaw timer. -/
theorem modeFlyingControlTest_state (now : ℚ) (s : SysState)
    (hands : List Hand) :
    ∃ hy fl yt, (LLLMImpl.modeFlyingControlTest now s hands).2 =
      { s with sLMFlyingHysteresis := hy, agentFlying := fl, mYawTimer := yt } := by
  simp only [LLLMImpl.modeFlyingControlTest]
  split_ifs with h1 h2 h3 h4
  · exact ⟨_, _, _, rfl⟩
  · exact ⟨_, _, _, rfl⟩
  · obtain ⟨hy, fl, hA⟩ := flyOnOff_state s
      ((hands.get ⟨0, by omega⟩).fingers.length) s.agentFlying
    rw [flyMotion_state, hA]
    exact ⟨_, _, _, rfl⟩
  · obtain ⟨hy, fl, hA⟩ := flyOnOff_state s
      ((hands.get ⟨0, by omega⟩).fingers.length) s.agentFlying
    rw [hA]
    exact ⟨_, _, s.mYawTimer, rfl⟩
  · exact ⟨s.sLMFlyingHysteresis, s.agentFlying, s.mYawTimer, by simp⟩

/-- Mode 1 can change only the chat-message timer. -/
theorem modeStreamDataToSL_state (now : ℚ) (s : SysState)
    (hands : List Hand) :
    ∃ ct, (LLLMImpl.modeStreamDataToSL now s hands).2 =
      { s with mChatMsgTimer := ct } := by
  simp only [LLLMImpl.modeStreamDataToSL]
  split_ifs
  · exact ⟨_, rfl⟩
  · exact ⟨_, rfl⟩
  · exact ⟨s.mChatMsgTimer, by simp⟩

/-- Branch `gestureOneFinger` can change only `trigger_direction`. -/
theorem gestureOneFinger_state (fl : List Finger) (hf : fl.length = 1)
    (s : SysState) :
    ∃ td, (LLLMImpl.gestureOneFinger fl hf s).2 =
      { s with trigger_direction := td } := by
  simp only [LLLMImpl.gestureOneFinger]
  split_ifs
  · exact ⟨_, rfl⟩
  · exact ⟨s.trigger_direction, by simp⟩

/-- Branch `gestureTwoFinger` can change only the chat timer and
`trigger_direction`. -/
theorem gestureTwoFinger_state (now : ℚ) (fl : List Finger)
    (hf : fl.length = 2) (s : SysState) :
    ∃ ct td, (LLLMImpl.gestureTwoFinger now fl hf s).2 =
      { s with mChatMsgTimer := ct, trigger_direction := td } := by
  simp only [LLLMImpl.gestureTwoFinger]
  split_ifs <;> exact ⟨_, _, rfl⟩

/-- Branch `gestureFiveFinger` can change only the gesture timer. -/
theorem gestureFiveFinger_state (now : ℚ) (s : SysState) :
    (LLLMImpl.gestureFiveFinger now s).2 =
      { s with mGestureTimer :=
          (s.mGestureTimer.checkExpirationAndReset now LLLEAP_GESTURE_INTERVAL).2 } := by
  simp only [LLLMImpl.gestureFiveFinger]
  split_ifs <;> rfl

/-- Appending after a prefix runs the evaluations in sequence. -/
theorem stateAfter_append (s : SysState) (l1 l2 : List StepInput) :
    stateAfter s (l1 ++ l2) = stateAfter (stateAfter s l1) l2 := by
  induction l1 generalizing s with
  | nil => rfl
  | cons i l ih => simp [stateAfter, ih]

/-- Section `flyOnOff` emits no yaw action. -/
theorem flyOnOff_no_moveYaw (s : SysState) (n : Nat) (f : Bool) (d : ℚ) :
    HostAction.moveYaw d ∉ (LLLMImpl.flyOnOff s n f).1 := by
  simp only [LLLMImpl.flyOnOff]
  split_ifs <;> simp

/-- Section `flyMotion` never moves the yaw expiry backwards. -/
theorem flyMotion_yaw_mono (now : ℚ) (hand : Hand) (s1 : SysState) :
    s1.mYawTimer.expiry ≤ ((LLLMImpl.flyMotion now hand s1).2).mYawTimer.expiry := by
  rw [flyMotion_state]
  exact LLTimer.check_expiry_mono _ _ _ (by norm_num [LLLEAP_YAW_INTERVAL])

/-- A yaw action from `flyMotion` happens only at an expired yaw timer, and
re-arms it to the current time plus the yaw interval. -/
theorem flyMotion_moveYaw (now : ℚ) (hand : Hand) (s1 : SysState) (d : ℚ)
    (h : HostAction.moveYaw d ∈ (LLLMImpl.flyMotion now hand s1).1) :
    s1.mYawTimer.expiry ≤ now ∧
    ((LLLMImpl.flyMotion now hand s1).2).mYawTimer.expiry =
      now + LLLEAP_YAW_INTERVAL := by
  simp only [LLLMImpl.flyMotion] at h ⊢
  simp only [LLTimer.check_fst] at h
  split_ifs at h <;>
    simp_all [LLTimer.check_snd]

/-- Mode 0 never moves the yaw expiry backwards. -/
theorem modeFlyingControlTest_yaw_mono (now : ℚ) (s : SysState)
    (hands : List Hand) :
    s.mYawTimer.expiry ≤
      ((LLLMImpl.modeFlyingControlTest now s hands).2).mYawTimer.expiry := by
  simp only [LLLMImpl.modeFlyingControlTest]
  split_ifs with c1 c2 h1 c3
  · simp
  · simp
  · obtain ⟨hy, fl, hA⟩ := flyOnOff_state s
      ((hands.get ⟨0, by omega⟩).fingers.length) s.agentFlying
    have h2 := flyMotion_yaw_mono now (hands.get ⟨0, by omega⟩)
      (LLLMImpl.flyOnOff s ((hands.get ⟨0, by omega⟩).fingers.length) s.agentFlying).2
    rw [hA] at h2 ⊢
    simpa using h2
  · obtain ⟨hy, fl, hA⟩ := flyOnOff_state s
      ((hands.get ⟨0, by omega⟩).fingers.length) s.agentFlying
    rw [hA]
  · simp

/-- A yaw action from mode 0 happens only at an expired yaw timer, and
re-arms it to the current time plus the yaw interval. -/
theorem modeFlyingControlTest_moveYaw (now : ℚ) (s : SysState)
    (hands : List Hand) (d : ℚ)
    (h : HostAction.moveYaw d ∈
      (LLLMImpl.modeFlyingControlTest now s hands).1.actions) :
    s.mYawTimer.expiry ≤ now ∧
    ((LLLMImpl.modeFlyingControlTest now s hands).2).mYawTimer.expiry =
      now + LLLEAP_YAW_INTERVAL := by
  simp only [LLLMImpl.modeFlyingControlTest] at h ⊢
  split_ifs at h ⊢ with c1 c2 h1 c3
  · simp at h
  · simp at h
  · have hmem : HostAction.moveYaw d ∈
        (LLLMImpl.flyMotion now (hands.get ⟨0, by omega⟩)
          (LLLMImpl.flyOnOff s ((hands.get ⟨0, by omega⟩).fingers.length)
            s.agentFlying).2).1 := by
      rcases List.mem_append.1 h with hc | hc
      · exact absurd hc (flyOnOff_no_moveYaw _ _ _ _)
      · exact hc
    obtain ⟨hy, fl, hA⟩ := flyOnOff_state s
      ((hands.get ⟨0, by omega⟩).fingers.length) s.agentFlying
    have h2 := flyMotion_moveYaw now (hands.get ⟨0, by omega⟩)
      (LLLMImpl.flyOnOff s ((hands.get ⟨0, by omega⟩).fingers.length)
        s.agentFlying).2 d hmem
    rw [hA] at h2 ⊢
    simpa using h2
  · simp at h
    exact absurd h (flyOnOff_no_moveYaw _ _ _ _)
  · simp at h

/-- Mode 2 can change only the chat timer, the gesture timer and the two
statics `trigger_direction` and `last_num_fingers`. -/
theorem modeGestureDetection1_state (now : ℚ) (s : SysState)
    (hands : List Hand) :
    ∃ ct gt td ln, (LLLMImpl.modeGestureDetection1 now s hands).2 =
      { s with mChatMsgTimer := ct, mGestureTimer := gt,
               trigger_direction := td, last_num_fingers := ln } := by
  simp only [LLLMImpl.modeGestureDetection1]
  split_ifs with h1 hf1 hf2 hf5
  · obtain ⟨td, hA⟩ := gestureOneFinger_state
      ((hands.get ⟨0, by omega⟩).fingers) hf1 s
    rw [hA]
    exact ⟨_, _, _, _, rfl⟩
  · obtain ⟨ct, td, hA⟩ := gestureTwoFinger_state now
      ((hands.get ⟨0, by omega⟩).fingers) hf2 s
    rw [hA]
    exact ⟨_, _, _, _, rfl⟩
  · rw [gestureFiveFinger_state]
    exact ⟨_, _, _, _, rfl⟩
  · exact ⟨_, _, _, _, rfl⟩
  · exact ⟨s.mChatMsgTimer, s.mGestureTimer, s.trigger_direction,
      s.last_num_fingers, by simp⟩

/-- Section `flyOnOff` builds no chat message. -/
theorem flyOnOff_no_chatF (s : SysState) (n : Nat) (f : Bool) :
    (LLLMImpl.flyOnOff s n f).1.any HostAction.isChatFormatted = false := by
  simp only [LLLMImpl.flyOnOff]
  split_ifs <;> simp [HostAction.isChatFormatted]

/-- Section `flyMotion` builds no chat message. -/
theorem flyMotion_no_chatF (now : ℚ) (hand : Hand) (s1 : SysState) :
    (LLLMImpl.flyMotion now hand s1).1.any HostAction.isChatFormatted = false := by
  simp only [LLLMImpl.flyMotion]
  split_ifs <;> simp [HostAction.isChatFormatted]

/-- Mode 0 builds no chat message. -/
theorem modeFlyingControlTest_no_chatF (now : ℚ) (s : SysState)
    (hands : List Hand) :
    (LLLMImpl.modeFlyingControlTest now s hands).1.actions.any
      HostAction.isChatFormatted = false := by
  simp only [LLLMImpl.modeFlyingControlTest]
  split_ifs <;>
    simp [HostAction.isChatFormatted, flyOnOff_no_chatF, flyMotion_no_chatF]

/-- Section `camOrbit` emits only view/orbit actions and divides only by
`LM_ORBIT_RATE_FACTOR`. -/
theorem camOrbit_actions (pos : LMVector) :
    ((LLLMImpl.camOrbit pos).1.any HostAction.isChatFormatted = false) ∧
    (HostAction.triggerGesture ∉ (LLLMImpl.camOrbit pos).1) ∧
    ((LLLMImpl.camOrbit pos).1.all (fun a => !a.isChatSend) = true) ∧
    ((0 : ℚ) ∉ (LLLMImpl.camOrbit pos).2) := by
  simp only [LLLMImpl.camOrbit]
  split_ifs <;>
    simp [HostAction.isChatFormatted, HostAction.isChatSend,
      LM_ORBIT_RATE_FACTOR]

/-- Mode 3 builds no chat message. -/
theorem modeMoveAndCamTest1_no_chatF (s : SysState) (hands : List Hand) :
    (LLLMImpl.modeMoveAndCamTest1 s hands).1.actions.any
      HostAction.isChatFormatted = false := by
  simp only [LLLMImpl.modeMoveAndCamTest1]
  split_ifs <;>
    first
      | exact (camOrbit_actions _).1
      | simp [HostAction.isChatFormatted]

/-- Mode 411 builds no chat message. -/
theorem modeDumpDebugInfo_no_chatF (s : SysState) (hands : List Hand) :
    (LLLMImpl.modeDumpDebugInfo s hands).1.actions.any
      HostAction.isChatFormatted = false := by
  simp only [LLLMImpl.modeDumpDebugInfo]
  split_ifs <;>
    simp [HostAction.isChatFormatted, List.any_map, Function.comp,
      List.any_eq_false]

/-- Branch `gestureOneFinger` builds no chat message. -/
theorem gestureOneFinger_no_chatF (fl : List Finger) (hf : fl.length = 1)
    (s : SysState) :
    (LLLMImpl.gestureOneFinger fl hf s).1.actions.any
      HostAction.isChatFormatted = false := by
  simp only [LLLMImpl.gestureOneFinger]
  split_ifs <;> simp [HostAction.isChatFormatted]

/-- Branch `gestureFiveFinger` builds no chat message. -/
theorem gestureFiveFinger_no_chatF (now : ℚ) (s : SysState) :
    (LLLMImpl.gestureFiveFinger now s).1.actions.any
      HostAction.isChatFormatted = false := by
  simp only [LLLMImpl.gestureFiveFinger]
  split_ifs <;> simp [HostAction.isChatFormatted]

/-- Branch `gestureTwoFinger` never moves the chat expiry backwards. -/
theorem gestureTwoFinger_chat_mono (now : ℚ) (fl : List Finger)
    (hf : fl.length = 2) (s : SysState) :
    s.mChatMsgTimer.expiry ≤
      ((LLLMImpl.gestureTwoFinger now fl hf s).2).mChatMsgTimer.expiry := by
  simp only [LLLMImpl.gestureTwoFinger]
  split_ifs <;> simp <;>
    exact LLTimer.check_expiry_mono _ _ _
      (by norm_num [LLLEAP_CHAT_MSG_INTERVAL])

/-- A gunfire chat attempt from `gestureTwoFinger` happens only at an
expired chat timer, and re-arms it to now plus the chat interval. -/
theorem gestureTwoFinger_chatF (now : ℚ) (fl : List Finger)
    (hf : fl.length = 2) (s : SysState)
    (h : (LLLMImpl.gestureTwoFinger now fl hf s).1.actions.any
      HostAction.isChatFormatted = true) :
    s.mChatMsgTimer.expiry ≤ now ∧
    ((LLLMImpl.gestureTwoFinger now fl hf s).2).mChatMsgTimer.expiry =
      now + LLLEAP_CHAT_MSG_INTERVAL := by
  simp only [LLLMImpl.gestureTwoFinger] at h ⊢
  simp only [LLTimer.check_fst] at h ⊢
  split_ifs at h <;>
    simp_all [HostAction.isChatFormatted, LLTimer.check_snd]

/-- Mode 2 never moves the chat expiry backwards. -/
theorem modeGestureDetection1_chat_mono (now : ℚ) (s : SysState)
    (hands : List Hand) :
    s.mChatMsgTimer.expiry ≤
      ((LLLMImpl.modeGestureDetection1 now s hands).2).mChatMsgTimer.expiry := by
  simp only [LLLMImpl.modeGestureDetection1]
  split_ifs with h1 hf1 hf2 hf5
  · obtain ⟨td, hA⟩ := gestureOneFinger_state
      ((hands.get ⟨0, by omega⟩).fingers) hf1 s
    rw [hA]
  · have h2 := gestureTwoFinger_chat_mono now
      ((hands.get ⟨0, by omega⟩).fingers) hf2 s
    simpa using h2
  · rw [gestureFiveFinger_state]
  · simp
  · simp

/-- A chat attempt from mode 2 happens only at an expired chat timer, and
re-arms it to now plus the chat interval. -/
theorem modeGestureDetection1_chatF (now : ℚ) (s : SysState)
    (hands : List Hand)
    (h : (LLLMImpl.modeGestureDetection1 now s hands).1.actions.any
      HostAction.isChatFormatted = true) :
    s.mChatMsgTimer.expiry ≤ now ∧
    ((LLLMImpl.modeGestureDetection1 now s hands).2).mChatMsgTimer.expiry =
      now + LLLEAP_CHAT_MSG_INTERVAL := by
  simp only [LLLMImpl.modeGestureDetection1] at h ⊢
  split_ifs at h ⊢ with h1 hf1 hf2 hf5
  · rw [show ((LLLMImpl.gestureOneFinger
        ((hands.get ⟨0, by omega⟩).fingers) hf1 s).1.actions.any
        HostAction.isChatFormatted) = false from
      gestureOneFinger_no_chatF _ hf1 s] at h
    exact absurd h (by simp)
  · have h2 := gestureTwoFinger_chatF now
      ((hands.get ⟨0, by omega⟩).fingers) hf2 s h
    simpa using h2
  · rw [show ((LLLMImpl.gestureFiveFinger now s).1.actions.any
        HostAction.isChatFormatted) = false from
      gestureFiveFinger_no_chatF now s] at h
    exact absurd h (by simp)
  · simp at h
  · simp at h

/-- Mode 1 never moves the chat expiry backwards. -/
theorem modeStreamDataToSL_chat_mono (now : ℚ) (s : SysState)
    (hands : List Hand) :
    s.mChatMsgTimer.expiry ≤
      ((LLLMImpl.modeStreamDataToSL now s hands).2).mChatMsgTimer.expiry := by
  simp only [LLLMImpl.modeStreamDataToSL]
  split_ifs <;> simp <;>
    exact LLTimer.check_expiry_mono _ _ _
      (by norm_num [LLLEAP_CHAT_MSG_INTERVAL])

/-- A chat attempt from mode 1 happens only at an expired chat timer, and
re-arms it to now plus the chat interval. -/
theorem modeStreamDataToSL_chatF (now : ℚ) (s : SysState)
    (hands : List Hand)
    (h : (LLLMImpl.modeStreamDataToSL now s hands).1.actions.any
      HostAction.isChatFormatted = true) :
    s.mChatMsgTimer.expiry ≤ now ∧
    ((LLLMImpl.modeStreamDataToSL now s hands).2).mChatMsgTimer.expiry =
      now + LLLEAP_CHAT_MSG_INTERVAL := by
  simp only [LLLMImpl.modeStreamDataToSL] at h ⊢
  simp only [LLTimer.check_fst] at h ⊢
  split_ifs at h <;>
    simp_all [HostAction.isChatFormatted, LLTimer.check_snd]

/-- Branch `gestureFiveFinger` never moves the gesture expiry backwards. -/
theorem gestureFiveFinger_gesture_mono (now : ℚ) (s : SysState) :
    s.mGestureTimer.expiry ≤
      ((LLLMImpl.gestureFiveFinger now s).2).mGestureTimer.expiry := by
  rw [gestureFiveFinger_state]
  exact LLTimer.check_expiry_mono _ _ _
    (by norm_num [LLLEAP_GESTURE_INTERVAL])

/-- A gesture trigger from `gestureFiveFinger` happens only at an expired
gesture timer, and re-arms it to now plus the gesture interval. -/
theorem gestureFiveFinger_trigger (now : ℚ) (s : SysState)
    (h : HostAction.triggerGesture ∈ (LLLMImpl.gestureFiveFinger now s).1.actions) :
    s.mGestureTimer.expiry ≤ now ∧
    ((LLLMImpl.gestureFiveFinger now s).2).mGestureTimer.expiry =
      now + LLLEAP_GESTURE_INTERVAL := by
  simp only [LLLMImpl.gestureFiveFinger] at h ⊢
  simp only [LLTimer.check_fst] at h ⊢
  split_ifs at h <;> simp_all [LLTimer.check_snd]

/-- Branch `gestureOneFinger` triggers no gesture. -/
theorem gestureOneFinger_no_trigger (fl : List Finger) (hf : fl.length = 1)
    (s : SysState) :
    HostAction.triggerGesture ∉ (LLLMImpl.gestureOneFinger fl hf s).1.actions := by
  simp only [LLLMImpl.gestureOneFinger]
  split_ifs <;> simp

/-- Branch `gestureTwoFinger` triggers no gesture. -/
theorem gestureTwoFinger_no_trigger (now : ℚ) (fl : List Finger)
    (hf : fl.length = 2) (s : SysState) :
    HostAction.triggerGesture ∉ (LLLMImpl.gestureTwoFinger now fl hf s).1.actions := by
  simp only [LLLMImpl.gestureTwoFinger]
  split_ifs <;> simp

/-- Mode 2 never moves the gesture expiry backwards. -/
theorem modeGestureDetection1_gesture_mono (now : ℚ) (s : SysState)
    (hands : List Hand) :
    s.mGestureTimer.expiry ≤
      ((LLLMImpl.modeGestureDetection1 now s hands).2).mGestureTimer.expiry := by
  simp only [LLLMImpl.modeGestureDetection1]
  split_ifs with h1 hf1 hf2 hf5
  · obtain ⟨td, hA⟩ := gestureOneFinger_state
      ((hands.get ⟨0, by omega⟩).fingers) hf1 s
    rw [hA]
  · obtain ⟨ct, td, hA⟩ := gestureTwoFinger_state now
      ((hands.get ⟨0, by omega⟩).fingers) hf2 s
    rw [hA]
  · have h2 := gestureFiveFinger_gesture_mono now s
    simpa using h2
  · simp
  · simp

/-- A gesture trigger from mode 2 happens only with five fingers matching
the previous one-hand evaluation and an expired gesture timer, and re-arms
that timer to now plus the gesture interval. -/
theorem modeGestureDetection1_trigger (now : ℚ) (s : SysState)
    (hands : List Hand)
    (h : HostAction.triggerGesture ∈
      (LLLMImpl.modeGestureDetection1 now s hands).1.actions) :
    s.mGestureTimer.expiry ≤ now ∧
    ((LLLMImpl.modeGestureDetection1 now s hands).2).mGestureTimer.expiry =
      now + LLLEAP_GESTURE_INTERVAL := by
  simp only [LLLMImpl.modeGestureDetection1] at h ⊢
  split_ifs at h ⊢ with h1 hf1 hf2 hf5
  · exact absurd (by simpa using h) (gestureOneFinger_no_trigger _ hf1 s)
  · exact absurd (by simpa using h) (gestureTwoFinger_no_trigger now _ hf2 s)
  · have h2 := gestureFiveFinger_trigger now s (by simpa using h)
    simpa using h2
  · simp at h
  · simp at h

/-- Section `flyOnOff` triggers no gesture. -/
theorem flyOnOff_no_trigger (s : SysState) (n : Nat) (f : Bool) :
    HostAction.triggerGesture ∉ (LLLMImpl.flyOnOff s n f).1 := by
  simp only [LLLMImpl.flyOnOff]
  split_ifs <;> simp

/-- Section `flyMotion` triggers no gesture. -/
theorem flyMotion_no_trigger (now : ℚ) (hand : Hand) (s1 : SysState) :
    HostAction.triggerGesture ∉ (LLLMImpl.flyMotion now hand s1).1 := by
  simp only [LLLMImpl.flyMotion]
  split_ifs <;> simp

/-- Mode 0 triggers no gesture. -/
theorem modeFlyingControlTest_no_trigger (now : ℚ) (s : SysState)
    (hands : List Hand) :
    HostAction.triggerGesture ∉
      (LLLMImpl.modeFlyingControlTest now s hands).1.actions := by
  intro h
  simp only [LLLMImpl.modeFlyingControlTest] at h
  split_ifs at h
  · simp at h
  · simp at h
  · rcases List.mem_append.1 (by simpa using h) with hc | hc
    · exact flyOnOff_no_trigger _ _ _ hc
    · exact flyMotion_no_trigger _ _ _ hc
  · simp at h
    exact flyOnOff_no_trigger _ _ _ h
  · simp at h

/-- Mode 1 triggers no gesture. -/
theorem modeStreamDataToSL_no_trigger (now : ℚ) (s : SysState)
    (hands : List Hand) :
    HostAction.triggerGesture ∉
      (LLLMImpl.modeStreamDataToSL now s hands).1.actions := by
  intro h
  simp only [LLLMImpl.modeStreamDataToSL] at h
  split_ifs at h <;> simp at h

/-- Mode 3 triggers no gesture. -/
theorem modeMoveAndCamTest1_no_trigger (s : SysState) (hands : List Hand) :
    HostAction.triggerGesture ∉
      (LLLMImpl.modeMoveAndCamTest1 s hands).1.actions := by
  intro h
  simp only [LLLMImpl.modeMoveAndCamTest1] at h
  split_ifs at h <;>
    first
      | exact (camOrbit_actions _).2.1 h
      | simp at h

/-- Mode 411 triggers no gesture. -/
theorem modeDumpDebugInfo_no_trigger (s : SysState) (hands : List Hand) :
    HostAction.triggerGesture ∉
      (LLLMImpl.modeDumpDebugInfo s hands).1.actions := by
  intro h
  simp only [LLLMImpl.modeDumpDebugInfo] at h
  split_ifs at h <;> simp at h

/-- One evaluation never moves the yaw expiry backwards. -/
theorem stepOn_yaw_mono (i : StepInput) (s : SysState) :
    s.mYawTimer.expiry ≤ ((stepOn i s).2).mYawTimer.expiry := by
  unfold stepOn LLLMImpl.dispatchMode
  split_ifs
  · exact modeFlyingControlTest_yaw_mono _ _ _
  · obtain ⟨ct, hA⟩ := modeStreamDataToSL_state i.now s i.hands
    rw [hA]
  · obtain ⟨ct, gt, td, ln, hA⟩ := modeGestureDetection1_state i.now s i.hands
    rw [hA]
  · rw [modeMoveAndCamTest1_state]
  · rw [modeDumpDebugInfo_state]
  · simp

/-- One evaluation never moves the chat expiry backwards. -/
theorem stepOn_chat_mono (i : StepInput) (s : SysState) :
    s.mChatMsgTimer.expiry ≤ ((stepOn i s).2).mChatMsgTimer.expiry := by
  unfold stepOn LLLMImpl.dispatchMode
  split_ifs
  · obtain ⟨hy, fl, yt, hA⟩ := modeFlyingControlTest_state i.now s i.hands
    rw [hA]
  · exact modeStreamDataToSL_chat_mono _ _ _
  · exact modeGestureDetection1_chat_mono _ _ _
  · rw [modeMoveAndCamTest1_state]
  · rw [modeDumpDebugInfo_state]
  · simp

/-- One evaluation never moves the gesture expiry backwards. -/
theorem stepOn_gesture_mono (i : StepInput) (s : SysState) :
    s.mGestureTimer.expiry ≤ ((stepOn i s).2).mGestureTimer.expiry := by
  unfold stepOn LLLMImpl.dispatchMode
  split_ifs
  · obtain ⟨hy, fl, yt, hA⟩ := modeFlyingControlTest_state i.now s i.hands
    rw [hA]
  · obtain ⟨ct, hA⟩ := modeStreamDataToSL_state i.now s i.hands
    rw [hA]
  · exact modeGestureDetection1_gesture_mono _ _ _
  · rw [modeMoveAndCamTest1_state]
  · rw [modeDumpDebugInfo_state]
  · simp

/-- A yaw event happens only at an expired yaw timer and re-arms it. -/
theorem stepOn_yawEvent (i : StepInput) (s : SysState)
    (h : yawEventB s i = true) :
    s.mYawTimer.expiry ≤ i.now ∧
    ((stepOn i s).2).mYawTimer.expiry = i.now + LLLEAP_YAW_INTERVAL := by
  simp only [yawEventB, decide_eq_true_eq] at h
  obtain ⟨hm, hd⟩ := h
  have hstep : stepOn i s = LLLMImpl.modeFlyingControlTest i.now s i.hands := by
    unfold stepOn LLLMImpl.dispatchMode
    rw [hm]
    simp
  rw [hstep] at hd ⊢
  rcases hd with hd | hd
  · exact modeFlyingControlTest_moveYaw _ _ _ _ hd
  · exact modeFlyingControlTest_moveYaw _ _ _ _ hd

/-- A chat-attempt event happens only at an expired chat timer and re-arms
it. -/
theorem stepOn_chatEvent (i : StepInput) (s : SysState)
    (h : chatEventB s i = true) :
    s.mChatMsgTimer.expiry ≤ i.now ∧
    ((stepOn i s).2).mChatMsgTimer.expiry = i.now + LLLEAP_CHAT_MSG_INTERVAL := by
  unfold chatEventB at h
  unfold stepOn LLLMImpl.dispatchMode at h ⊢
  split_ifs at h ⊢
  · rw [modeFlyingControlTest_no_chatF] at h
    exact absurd h (by simp)
  · exact modeStreamDataToSL_chatF _ _ _ h
  · exact modeGestureDetection1_chatF _ _ _ h
  · rw [modeMoveAndCamTest1_no_chatF] at h
    exact absurd h (by simp)
  · rw [modeDumpDebugInfo_no_chatF] at h
    exact absurd h (by simp)
  · simp at h

/-- A gesture event happens only at an expired gesture timer and re-arms
it. -/
theorem stepOn_gestureEvent (i : StepInput) (s : SysState)
    (h : gestureEventB s i = true) :
    s.mGestureTimer.expiry ≤ i.now ∧
    ((stepOn i s).2).mGestureTimer.expiry = i.now + LLLEAP_GESTURE_INTERVAL := by
  simp only [gestureEventB, decide_eq_true_eq] at h
  unfold stepOn LLLMImpl.dispatchMode at h ⊢
  split_ifs at h ⊢
  · exact absurd h (modeFlyingControlTest_no_trigger _ _ _)
  · exact absurd h (modeStreamDataToSL_no_trigger _ _ _)
  · exact modeGestureDetection1_trigger _ _ _ h
  · exact absurd h (modeMoveAndCamTest1_no_trigger _ _)
  · exact absurd h (modeDumpDebugInfo_no_trigger _ _)
  · simp at h

/-- The expiry of a monotone timer projection never decreases along a run. -/
theorem stateAfter_mono (proj : SysState → ℚ)
    (mono : ∀ i s, proj s ≤ proj (stepOn i s).2)
    (l : List StepInput) (s : SysState) :
    proj s ≤ proj (stateAfter s l) := by
  induction l generalizing s with
  | nil => exact le_refl _
  | cons i l ih => exact le_trans (mono i s) (ih _)

/-- Two events of the same rate-limited kind are separated by at least the
interval of the timer that gates them: the first event re-arms the timer to
its own time plus the interval, the expiry never decreases afterwards, and
the second event needs an expired timer. -/
theorem rate_limited_of (proj : SysState → ℚ) (I : ℚ)
    (ev : SysState → StepInput → Bool)
    (mono : ∀ i s, proj s ≤ proj (stepOn i s).2)
    (evH : ∀ i s, ev s i = true →
      proj s ≤ i.now ∧ proj (stepOn i s).2 = i.now + I)
    (s : SysState) (pre mid : List StepInput) (a b : StepInput)
    (ha : ev (stateAfter s pre) a = true)
    (hb : ev (stateAfter s (pre ++ a :: mid)) b = true) :
    a.now + I ≤ b.now := by
  have happ : stateAfter s (pre ++ a :: mid) =
      stateAfter (stepOn a (stateAfter s pre)).2 mid := by
    rw [stateAfter_append]
    rfl
  have h1 := (evH a (stateAfter s pre) ha).2
  have h2 := stateAfter_mono proj mono mid (stepOn a (stateAfter s pre)).2
  have h3 := (evH b (stateAfter s (pre ++ a :: mid)) hb).1
  rw [happ] at h3
  rw [h1] at h2
  linarith

/-- C6: Three interval timers rate-limit outbound actions: a yaw turn in
`modeFlyingControlTest` occurs only when the yaw timer (interval 0.075 s)
has expired, a chat-message attempt (in `modeStreamDataToSL` or the gunfire
branch of `modeGestureDetection1`) occurs only when the chat-message timer
(interval 0.2 s) has expired, and a Second Life gesture is triggered only
when the gesture timer (interval 3 s) has expired; in each case the timer
is reset at the moment of the action, so two actions of the same kind are
never closer than the corresponding interval. -/
theorem C6_rate_limited_actions :
    (∀ i s, yawEventB s i = true →
      s.mYawTimer.expiry ≤ i.now ∧
      ((stepOn i s).2).mYawTimer.expiry = i.now + LLLEAP_YAW_INTERVAL) ∧
    (∀ i s, chatEventB s i = true →
      s.mChatMsgTimer.expiry ≤ i.now ∧
      ((stepOn i s).2).mChatMsgTimer.expiry = i.now + LLLEAP_CHAT_MSG_INTERVAL) ∧
    (∀ i s, gestureEventB s i = true →
      s.mGestureTimer.expiry ≤ i.now ∧
      ((stepOn i s).2).mGestureTimer.expiry = i.now + LLLEAP_GESTURE_INTERVAL) ∧
    (∀ s pre mid a b, yawEventB (stateAfter s pre) a = true →
      yawEventB (stateAfter s (pre ++ a :: mid)) b = true →
      a.now + LLLEAP_YAW_INTERVAL ≤ b.now) ∧
    (∀ s pre mid a b, chatEventB (stateAfter s pre) a = true →
      chatEventB (stateAfter s (pre ++ a :: mid)) b = true →
      a.now + LLLEAP_CHAT_MSG_INTERVAL ≤ b.now) ∧
    (∀ s pre mid a b, gestureEventB (stateAfter s pre) a = true →
      gestureEventB (stateAfter s (pre ++ a :: mid)) b = true →
      a.now + LLLEAP_GESTURE_INTERVAL ≤ b.now) := by
  refine ⟨stepOn_yawEvent, stepOn_chatEvent, stepOn_gestureEvent, ?_, ?_, ?_⟩
  · intro s pre mid a b ha hb
    exact rate_limited_of (fun s => s.mYawTimer.expiry) _ yawEventB
      stepOn_yaw_mono stepOn_yawEvent s pre mid a b ha hb
  · intro s pre mid a b ha hb
    exact rate_limited_of (fun s => s.mChatMsgTimer.expiry) _ chatEventB
      stepOn_chat_mono stepOn_chatEvent s pre mid a b ha hb
  · intro s pre mid a b ha hb
    exact rate_limited_of (fun s => s.mGestureTimer.expiry) _ gestureEventB
      stepOn_gesture_mono stepOn_gestureEvent s pre mid a b ha hb

/-- Witness for C6 at concrete inputs: a flying five-finger evaluation at
times 0 and 1 (yaw), one-hand telemetry evaluations at times 0 and 1
(chat), and five-finger evaluations at times 0 and 4 (gesture). -/
theorem C6_rate_limited_actions_witness :
    (yawEventB { initialState with agentFlying := true, mYawTimer := ⟨0⟩ }
        ⟨0, 0, [wFiveHand]⟩ = true ∧
      yawEventB
        (stateAfter { initialState with agentFlying := true, mYawTimer := ⟨0⟩ }
          [⟨0, 0, [wFiveHand]⟩]) ⟨1, 0, [wFiveHand]⟩ = true ∧
      (0 : ℚ) + LLLEAP_YAW_INTERVAL ≤ (1 : ℚ)) ∧
    (chatEventB { initialState with mChatMsgTimer := ⟨0⟩ } ⟨0, 1, [wFiveHand]⟩ = true ∧
      chatEventB
        (stateAfter { initialState with mChatMsgTimer := ⟨0⟩ } [⟨0, 1, [wFiveHand]⟩])
        ⟨1, 1, [wFiveHand]⟩ = true ∧
      (0 : ℚ) + LLLEAP_CHAT_MSG_INTERVAL ≤ (1 : ℚ)) ∧
    (gestureEventB { initialState with mGestureTimer := ⟨0⟩, last_num_fingers := 5 }
        ⟨0, 2, [wFiveHand]⟩ = true ∧
      gestureEventB
        (stateAfter { initialState with mGestureTimer := ⟨0⟩, last_num_fingers := 5 }
          [⟨0, 2, [wFiveHand]⟩]) ⟨4, 2, [wFiveHand]⟩ = true ∧
      (0 : ℚ) + LLLEAP_GESTURE_INTERVAL ≤ (4 : ℚ)) := by
  refine ⟨⟨?h1, ?h2, ?_⟩, ⟨?h3, ?h4, ?_⟩, ⟨?h5, ?h6, ?_⟩⟩
  case h1 => with_unfolding_all decide
  case h2 => with_unfolding_all decide
  case h3 => with_unfolding_all decide
  case h4 => with_unfolding_all decide
  case h5 => with_unfolding_all decide
  case h6 => with_unfolding_all decide
  · exact C6_rate_limited_actions.2.2.2.1
      { initialState with agentFlying := true, mYawTimer := ⟨0⟩ } [] []
      ⟨0, 0, [wFiveHand]⟩ ⟨1, 0, [wFiveHand]⟩
      (by with_unfolding_all decide) (by with_unfolding_all decide)
  · exact C6_rate_limited_actions.2.2.2.2.1
      { initialState with mChatMsgTimer := ⟨0⟩ } [] []
      ⟨0, 1, [wFiveHand]⟩ ⟨1, 1, [wFiveHand]⟩
      (by with_unfolding_all decide) (by with_unfolding_all decide)
  · exact C6_rate_limited_actions.2.2.2.2.2
      { initialState with mGestureTimer := ⟨0⟩, last_num_fingers := 5 } [] []
      ⟨0, 2, [wFiveHand]⟩ ⟨4, 2, [wFiveHand]⟩
      (by with_unfolding_all decide) (by with_unfolding_all decide)

/-- C7: In `modeGestureDetection1` the avatar gesture is triggered only
when the current evaluation sees one hand with exactly 5 fingers, the
finger count recorded by the previous one-hand evaluation (the static
`last_num_fingers`) is also 5, and the gesture timer has expired; moreover
every one-hand evaluation records its finger count in `last_num_fingers`
and every other evaluation leaves the state unchanged. -/
theorem C7_gesture_needs_consecutive_fives :
    (∀ now s hands,
      HostAction.triggerGesture ∈
        (LLLMImpl.modeGestureDetection1 now s hands).1.actions →
      ∃ h, hands = [h] ∧ h.fingers.length = 5 ∧ s.last_num_fingers = 5 ∧
        s.mGestureTimer.expiry ≤ now) ∧
    (∀ now s h,
      ((LLLMImpl.modeGestureDetection1 now s [h]).2).last_num_fingers =
        (h.fingers.length : Int)) ∧
    (∀ now s hands, hands.length ≠ 1 →
      (LLLMImpl.modeGestureDetection1 now s hands).2 = s) := by
  refine ⟨?_, ?_, ?_⟩
  · intro now s hands h
    simp only [LLLMImpl.modeGestureDetection1] at h
    split_ifs at h with h1 hf1 hf2 hf5
    · exact absurd (by simpa using h) (gestureOneFinger_no_trigger _ hf1 s)
    · exact absurd (by simpa using h) (gestureTwoFinger_no_trigger now _ hf2 s)
    · obtain ⟨a, ha⟩ := List.length_eq_one.1 h1
      subst ha
      have h5 := gestureFiveFinger_trigger now s (by simpa using h)
      refine ⟨a, rfl, ?_, ?_, h5.1⟩
      · simpa using hf5.1
      · have h2 := hf5.2
        have h3 : (([a].get ⟨0, by omega⟩).fingers.length : Int) = 5 := by
          have := hf5.1
          simp only [List.get] at this ⊢
          exact_mod_cast this
        rw [h3] at h2
        exact h2.symm
    · simp at h
    · simp at h
  · intro now s h
    simp only [LLLMImpl.modeGestureDetection1]
    rw [dif_pos (by simp)]
    simp
  · intro now s hands h1
    simp only [LLLMImpl.modeGestureDetection1]
    rw [dif_neg h1]

/-- Witness for C7: one hand with five fingers, previous count 5, expired
gesture timer. -/
theorem C7_gesture_needs_consecutive_fives_witness :
    (HostAction.triggerGesture ∈
      (LLLMImpl.modeGestureDetection1 1
        { initialState with mGestureTimer := ⟨0⟩, last_num_fingers := 5 }
        [wFiveHand]).1.actions ∧
      ∃ h, [wFiveHand] = [h] ∧ h.fingers.length = 5 ∧
        (5 : Int) = 5 ∧ (0 : ℚ) ≤ 1) ∧
    ([wFiveHand].length ≠ 2 ∧
      (LLLMImpl.modeGestureDetection1 1 initialState ([] : List Hand)).2 =
        initialState) := by
  constructor
  · constructor
    · with_unfolding_all decide
    · obtain ⟨h, hh, h5, _, _⟩ :=
        C7_gesture_needs_consecutive_fives.1 1
          { initialState with mGestureTimer := ⟨0⟩, last_num_fingers := 5 }
          [wFiveHand] (by with_unfolding_all decide)
      exact ⟨h, hh, h5, rfl, by norm_num⟩
  · exact ⟨by decide, C7_gesture_needs_consecutive_fives.2.2 1 initialState
      ([] : List Hand) (by decide)⟩

/-- A start-flight action from `flyOnOff` needs more than two fingers while
not flying, and sets the hysteresis counter to 5. -/
theorem flyOnOff_setFlying_true (s : SysState) (n : Nat) (f : Bool)
    (h : HostAction.setFlying true ∈ (LLLMImpl.flyOnOff s n f).1) :
    n > 2 ∧ f = false ∧
    (LLLMImpl.flyOnOff s n f).2.sLMFlyingHysteresis = 5 ∧
    (LLLMImpl.flyOnOff s n f).2.agentFlying = true := by
  simp only [LLLMImpl.flyOnOff] at h ⊢
  split_ifs at h <;> simp_all

/-- A stop-flight action from `flyOnOff` needs zero fingers while flying
with a non-positive hysteresis counter, which it leaves unchanged. -/
theorem flyOnOff_setFlying_false (s : SysState) (n : Nat) (f : Bool)
    (h : HostAction.setFlying false ∈ (LLLMImpl.flyOnOff s n f).1) :
    n = 0 ∧ f = true ∧ s.sLMFlyingHysteresis ≤ 0 ∧
    (LLLMImpl.flyOnOff s n f).2.sLMFlyingHysteresis = s.sLMFlyingHysteresis := by
  simp only [LLLMImpl.flyOnOff] at h ⊢
  split_ifs at h ⊢ <;> simp_all

/-- Section `flyMotion` never toggles flight. -/
theorem flyMotion_no_setFlying (now : ℚ) (hand : Hand) (s1 : SysState)
    (b : Bool) :
    HostAction.setFlying b ∉ (LLLMImpl.flyMotion now hand s1).1 := by
  simp only [LLLMImpl.flyMotion]
  split_ifs <;> simp

/-- A start-flight action from mode 0 needs one hand with more than two
fingers while not flying, and sets the hysteresis counter to 5. -/
theorem modeFlyingControlTest_start (now : ℚ) (s : SysState)
    (hands : List Hand)
    (h : HostAction.setFlying true ∈
      (LLLMImpl.modeFlyingControlTest now s hands).1.actions) :
    s.agentFlying = false ∧
    (∃ hd, hands = [hd] ∧ hd.fingers.length > 2) ∧
    (LLLMImpl.modeFlyingControlTest now s hands).2.sLMFlyingHysteresis = 5 ∧
    (LLLMImpl.modeFlyingControlTest now s hands).2.agentFlying = true := by
  simp only [LLLMImpl.modeFlyingControlTest] at h ⊢
  split_ifs at h ⊢ with c1 c2 h1 c3
  · simp at h
  · simp at h
  · rcases List.mem_append.1 (by simpa using h) with hc | hc
    · have hsf := flyOnOff_setFlying_true _ _ _ hc
      rw [c3] at hsf
      exact absurd hsf.2.1 (by simp)
    · exact absurd hc (flyMotion_no_setFlying _ _ _ _)
  · simp only [List.append_nil] at h
    have hsf := flyOnOff_setFlying_true _ _ _ (by simpa using h)
    obtain ⟨a, ha⟩ := List.length_eq_one.1 h1
    subst ha
    refine ⟨hsf.2.1, ⟨a, rfl, by simpa using hsf.1⟩, ?_, ?_⟩
    · simpa using hsf.2.2.1
    · simpa using hsf.2.2.2
  · simp at h

/-- A stop-flight action from mode 0 needs a stop condition (no hands, or
one hand without fingers, while flying), a hysteresis counter at most 1
before the evaluation, and leaves it non-positive. -/
theorem modeFlyingControlTest_stop (now : ℚ) (s : SysState)
    (hands : List Hand)
    (h : HostAction.setFlying false ∈
      (LLLMImpl.modeFlyingControlTest now s hands).1.actions) :
    s.agentFlying = true ∧ stopHands hands = true ∧
    s.sLMFlyingHysteresis ≤ 1 ∧
    (LLLMImpl.modeFlyingControlTest now s hands).2.sLMFlyingHysteresis ≤ 0 := by
  simp only [LLLMImpl.modeFlyingControlTest] at h ⊢
  split_ifs at h ⊢ with c1 c2 h1 c3
  · obtain ⟨hl, hf, hc⟩ := c1
    refine ⟨hf, ?_, by omega, by simp; omega⟩
    rw [List.length_eq_zero.1 hl]
    rfl
  · simp at h
  · rcases List.mem_append.1 (by simpa using h) with hc | hc
    · have hsf := flyOnOff_setFlying_false _ _ _ hc
      obtain ⟨a, ha⟩ := List.length_eq_one.1 h1
      subst ha
      refine ⟨c3, ?_, by omega, ?_⟩
      · simp only [stopHands, List.isEmpty_iff]
        have h0 := hsf.1
        simpa [List.length_eq_zero] using h0
      · rw [flyMotion_state]
        simp only [List.get_cons_zero, List.getElem_cons_zero] at hsf ⊢
        simp
        rw [hsf.2.2.2]
        exact hsf.2.2.1
    · exact absurd hc (flyMotion_no_setFlying _ _ _ _)
  · simp only [List.append_nil] at h
    have hsf := flyOnOff_setFlying_false _ _ _ (by simpa using h)
    exact absurd hsf.2.1 c3
  · simp at h

/-- Section `flyOnOff` re-arms the hysteresis counter to 5, keeps it, or
lowers it by exactly one, the latter only on a zero-finger flying
evaluation. -/
theorem flyOnOff_counter (s : SysState) (n : Nat) (f : Bool) :
    (LLLMImpl.flyOnOff s n f).2.sLMFlyingHysteresis = 5 ∨
    (LLLMImpl.flyOnOff s n f).2.sLMFlyingHysteresis = s.sLMFlyingHysteresis ∨
    ((LLLMImpl.flyOnOff s n f).2.sLMFlyingHysteresis =
        s.sLMFlyingHysteresis - 1 ∧ n = 0 ∧ f = true) := by
  simp only [LLLMImpl.flyOnOff]
  split_ifs <;> simp_all

/-- Mode 0 re-arms the hysteresis counter to 5, keeps it, or lowers it by
exactly one, the latter only on a stop-condition evaluation. -/
theorem modeFlyingControlTest_counter (now : ℚ) (s : SysState)
    (hands : List Hand) :
    (LLLMImpl.modeFlyingControlTest now s hands).2.sLMFlyingHysteresis = 5 ∨
    (LLLMImpl.modeFlyingControlTest now s hands).2.sLMFlyingHysteresis =
      s.sLMFlyingHysteresis ∨
    ((LLLMImpl.modeFlyingControlTest now s hands).2.sLMFlyingHysteresis =
        s.sLMFlyingHysteresis - 1 ∧ s.agentFlying = true ∧
        stopHands hands = true) := by
  simp only [LLLMImpl.modeFlyingControlTest]
  split_ifs with c1 c2 h1 c3
  · right; right
    refine ⟨by simp, c1.2.1, ?_⟩
    rw [List.length_eq_zero.1 c1.1]
    rfl
  · right; right
    refine ⟨by simp, c1.2.1, ?_⟩
    rw [List.length_eq_zero.1 c1.1]
    rfl
  · obtain ⟨a, ha⟩ := List.length_eq_one.1 h1
    subst ha
    rw [flyMotion_state]
    rcases flyOnOff_counter s (([a].get ⟨0, by omega⟩).fingers.length)
        s.agentFlying with hc | hc | hc
    · left
      simpa using hc
    · right; left
      simpa using hc
    · right; right
      refine ⟨by simpa using hc.1, hc.2.2, ?_⟩
      have h0 : a.fingers.length = 0 := by simpa using hc.2.1
      simp [stopHands, List.isEmpty_iff, List.length_eq_zero.1 h0]
  · obtain ⟨a, ha⟩ := List.length_eq_one.1 h1
    subst ha
    rcases flyOnOff_counter s (([a].get ⟨0, by omega⟩).fingers.length)
        s.agentFlying with hc | hc | hc
    · left
      simpa using hc
    · right; left
      simpa using hc
    · exact absurd hc.2.2 c3
  · right; left
    simp

/-- One evaluation re-arms the hysteresis counter to 5, keeps it, or lowers
it by exactly one, the latter only on a stop-condition evaluation. -/
theorem stepOn_counter (i : StepInput) (s : SysState) :
    (stepOn i s).2.sLMFlyingHysteresis = 5 ∨
    (stepOn i s).2.sLMFlyingHysteresis = s.sLMFlyingHysteresis ∨
    ((stepOn i s).2.sLMFlyingHysteresis = s.sLMFlyingHysteresis - 1 ∧
      stopCondB s i = true) := by
  unfold stepOn LLLMImpl.dispatchMode
  split_ifs with m0 m1 m2 m3 m411
  · rcases modeFlyingControlTest_counter i.now s i.hands with hc | hc | hc
    · exact Or.inl hc
    · exact Or.inr (Or.inl hc)
    · refine Or.inr (Or.inr ⟨hc.1, ?_⟩)
      simp [stopCondB, m0, hc.2.1, hc.2.2]
  · obtain ⟨ct, hA⟩ := modeStreamDataToSL_state i.now s i.hands
    rw [hA]
    exact Or.inr (Or.inl rfl)
  · obtain ⟨ct, gt, td, ln, hA⟩ := modeGestureDetection1_state i.now s i.hands
    rw [hA]
    exact Or.inr (Or.inl rfl)
  · rw [modeMoveAndCamTest1_state]
    exact Or.inr (Or.inl rfl)
  · rw [modeDumpDebugInfo_state]
    exact Or.inr (Or.inl rfl)
  · exact Or.inr (Or.inl rfl)

/-- Along any run, the hysteresis counter stays above any bound at most 5
that held initially, minus the number of stop-condition evaluations. -/
theorem counter_lower_bound (l : List StepInput) :
    ∀ (s : SysState) (k : Int), k ≤ 5 → k ≤ s.sLMFlyingHysteresis →
      k - (countStop s l : Int) ≤ (stateAfter s l).sLMFlyingHysteresis := by
  induction l with
  | nil =>
    intro s k _ hs
    simpa [stateAfter, countStop] using hs
  | cons i l ih =>
    intro s k hk hs
    simp only [stateAfter, countStop]
    have hc : (0 : Int) ≤ (if stopCondB s i then 1 else 0 : Int) := by
      split_ifs <;> omega
    rcases stepOn_counter i s with hd | hd | hd
    · have h2 := ih (stepOn i s).2 5 (le_refl 5) (by omega)
      push_cast
      push_cast at h2
      omega
    · have h2 := ih (stepOn i s).2 k hk (by omega)
      push_cast
      push_cast at h2
      omega
    · have h2 := ih (stepOn i s).2 (k - 1) (by omega) (by omega)
      simp only [hd.2, if_true]
      push_cast
      push_cast at h2
      omega

/-- A start-flight evaluation needs one hand with more than two fingers
while not flying, and leaves the hysteresis counter at 5. -/
theorem stepOn_start (i : StepInput) (s : SysState)
    (h : startEventB s i = true) :
    s.agentFlying = false ∧
    (∃ hd, i.hands = [hd] ∧ hd.fingers.length > 2) ∧
    (stepOn i s).2.sLMFlyingHysteresis = 5 ∧
    (stepOn i s).2.agentFlying = true := by
  simp only [startEventB, decide_eq_true_eq] at h
  obtain ⟨hm, hd⟩ := h
  have hstep : stepOn i s = LLLMImpl.modeFlyingControlTest i.now s i.hands := by
    unfold stepOn LLLMImpl.dispatchMode
    rw [hm]
    simp
  rw [hstep] at hd ⊢
  exact modeFlyingControlTest_start i.now s i.hands hd

/-- A stop-flight evaluation is a stop-condition evaluation whose counter
was at most 1 and ends non-positive. -/
theorem stepOn_stop (i : StepInput) (s : SysState)
    (h : stopEventB s i = true) :
    stopCondB s i = true ∧ s.sLMFlyingHysteresis ≤ 1 ∧
    (stepOn i s).2.sLMFlyingHysteresis ≤ 0 := by
  simp only [stopEventB, decide_eq_true_eq] at h
  obtain ⟨hm, hd⟩ := h
  have hstep : stepOn i s = LLLMImpl.modeFlyingControlTest i.now s i.hands := by
    unfold stepOn LLLMImpl.dispatchMode
    rw [hm]
    simp
  rw [hstep] at hd ⊢
  have h2 := modeFlyingControlTest_stop i.now s i.hands hd
  refine ⟨?_, h2.2.2.1, h2.2.2.2⟩
  simp [stopCondB, hm, h2.1, h2.2.1]

/-- C8 counterexample: the claim demands at least five CONSECUTIVE
stop-condition evaluations before flight stops.  In this run, flight starts
(counter set to 5), four stop-condition evaluations run the counter to 1, a
two-hand evaluation interrupts, and one more stop-condition evaluation
stops flight: the stop happens although the longest consecutive run of
stop-condition evaluations is 4. -/
theorem C8_counterexample :
    startEventB initialState ⟨0, 0, [wThreeFingerHand]⟩ = true ∧
    stopEventB (stateAfter initialState
      [⟨0, 0, [wThreeFingerHand]⟩, ⟨1, 0, []⟩, ⟨2, 0, []⟩, ⟨3, 0, []⟩,
       ⟨4, 0, []⟩, ⟨5, 0, [wFiveHand, wFiveHand]⟩]) ⟨6, 0, []⟩ = true ∧
    stopPattern initialState
      [⟨0, 0, [wThreeFingerHand]⟩, ⟨1, 0, []⟩, ⟨2, 0, []⟩, ⟨3, 0, []⟩,
       ⟨4, 0, []⟩, ⟨5, 0, [wFiveHand, wFiveHand]⟩, ⟨6, 0, []⟩] =
      [false, true, true, true, true, false, true] ∧
    maxRun
      (stopPattern initialState
        [⟨0, 0, [wThreeFingerHand]⟩, ⟨1, 0, []⟩, ⟨2, 0, []⟩, ⟨3, 0, []⟩,
         ⟨4, 0, []⟩, ⟨5, 0, [wFiveHand, wFiveHand]⟩, ⟨6, 0, []⟩]) = 4 := by
  refine ⟨?_, ?_, ?_, ?_⟩ <;> with_unfolding_all decide

/-- C8 (amended): starting flight (one hand, more than 2 fingers, not
flying) sets the hysteresis counter to 5; `gAgent.setFlying(FALSE)` is
called only in a stop-condition evaluation that leaves the counter
non-positive; and between a start-flight evaluation and a later stop-flight
evaluation at least five stop-condition evaluations occur (four strictly
between them plus the stopping one), though not necessarily consecutive
ones. -/
theorem C8_flying_stop_hysteresis :
    (∀ i s, startEventB s i = true →
      s.agentFlying = false ∧
      (∃ hd, i.hands = [hd] ∧ hd.fingers.length > 2) ∧
      (stepOn i s).2.sLMFlyingHysteresis = 5) ∧
    (∀ i s, stopEventB s i = true →
      stopCondB s i = true ∧ s.sLMFlyingHysteresis ≤ 1 ∧
      (stepOn i s).2.sLMFlyingHysteresis ≤ 0) ∧
    (∀ s pre mid a b, startEventB (stateAfter s pre) a = true →
      stopEventB (stateAfter s (pre ++ a :: mid)) b = true →
      stopCondB (stateAfter s (pre ++ a :: mid)) b = true ∧
      4 ≤ countStop (stepOn a (stateAfter s pre)).2 mid) := by
  refine ⟨?_, ?_, ?_⟩
  · intro i s h
    have h2 := stepOn_start i s h
    exact ⟨h2.1, h2.2.1, h2.2.2.1⟩
  · exact stepOn_stop
  · intro s pre mid a b ha hb
    have happ : stateAfter s (pre ++ a :: mid) =
        stateAfter (stepOn a (stateAfter s pre)).2 mid := by
      rw [stateAfter_append]
      rfl
    have hstart := stepOn_start a (stateAfter s pre) ha
    have hstop := stepOn_stop b (stateAfter s (pre ++ a :: mid)) hb
    refine ⟨hstop.1, ?_⟩
    have hlow := counter_lower_bound mid (stepOn a (stateAfter s pre)).2 5
      (le_refl 5) (by rw [hstart.2.2.1])
    rw [← happ] at hlow
    have h1 := hstop.2.1
    omega

/-- Witness for C8 at concrete inputs: a three-finger start evaluation,
four empty-hand evaluations, a two-hand no-op, and a final empty-hand stop
evaluation. -/
theorem C8_flying_stop_hysteresis_witness :
    (startEventB initialState ⟨0, 0, [wThreeFingerHand]⟩ = true ∧
      initialState.agentFlying = false ∧
      (∃ hd, [wThreeFingerHand] = [hd] ∧ hd.fingers.length > 2) ∧
      (stepOn ⟨0, 0, [wThreeFingerHand]⟩ initialState).2.sLMFlyingHysteresis = 5) ∧
    (stopEventB (stateAfter initialState
        [⟨0, 0, [wThreeFingerHand]⟩, ⟨1, 0, []⟩, ⟨2, 0, []⟩, ⟨3, 0, []⟩,
         ⟨4, 0, []⟩, ⟨5, 0, [wFiveHand, wFiveHand]⟩]) ⟨6, 0, []⟩ = true ∧
      stopCondB (stateAfter initialState
        ([⟨0, 0, [wThreeFingerHand]⟩] ++
          [⟨1, 0, []⟩, ⟨2, 0, []⟩, ⟨3, 0, []⟩, ⟨4, 0, []⟩,
           ⟨5, 0, [wFiveHand, wFiveHand]⟩])) ⟨6, 0, []⟩ = true ∧
      4 ≤ countStop (stepOn ⟨0, 0, [wThreeFingerHand]⟩ (stateAfter initialState [])).2
        [⟨1, 0, []⟩, ⟨2, 0, []⟩, ⟨3, 0, []⟩, ⟨4, 0, []⟩,
         ⟨5, 0, [wFiveHand, wFiveHand]⟩]) := by
  refine ⟨⟨?_, ?_⟩, ?_, ?_⟩
  · with_unfolding_all decide
  · exact (C8_flying_stop_hysteresis.1 ⟨0, 0, [wThreeFingerHand]⟩ initialState
      (by with_unfolding_all decide))
  · with_unfolding_all decide
  · exact (C8_flying_stop_hysteresis.2.2 initialState []
      [⟨1, 0, []⟩, ⟨2, 0, []⟩, ⟨3, 0, []⟩, ⟨4, 0, []⟩,
       ⟨5, 0, [wFiveHand, wFiveHand]⟩]
      ⟨0, 0, [wThreeFingerHand]⟩ ⟨6, 0, []⟩
      (by with_unfolding_all decide) (by with_unfolding_all decide))

/-- Branch `gestureOneFinger` only keeps `trigger_direction` or resets it
to -1. -/
theorem gestureOneFinger_trigger_values (fl : List Finger)
    (hf : fl.length = 1) (s : SysState) :
    (LLLMImpl.gestureOneFinger fl hf s).2.trigger_direction =
        s.trigger_direction ∨
    (LLLMImpl.gestureOneFinger fl hf s).2.trigger_direction = -1 := by
  simp only [LLLMImpl.gestureOneFinger]
  split_ifs <;> simp

/-- Branch `gestureTwoFinger` only keeps `trigger_direction`, resets it to
-1, or fires it to 1. -/
theorem gestureTwoFinger_trigger_values (now : ℚ) (fl : List Finger)
    (hf : fl.length = 2) (s : SysState) :
    (LLLMImpl.gestureTwoFinger now fl hf s).2.trigger_direction =
        s.trigger_direction ∨
    (LLLMImpl.gestureTwoFinger now fl hf s).2.trigger_direction = -1 ∨
    (LLLMImpl.gestureTwoFinger now fl hf s).2.trigger_direction = 1 := by
  simp only [LLLMImpl.gestureTwoFinger]
  split_ifs <;> simp

/-- A gunfire attempt from `gestureTwoFinger` needs a negative (unfired)
trigger and sets it to 1. -/
theorem gestureTwoFinger_gunfire (now : ℚ) (fl : List Finger)
    (hf : fl.length = 2) (s : SysState)
    (h : HostAction.chatFormatted ChatMsg.lmGunfire ∈
      (LLLMImpl.gestureTwoFinger now fl hf s).1.actions) :
    s.trigger_direction < 0 ∧
    (LLLMImpl.gestureTwoFinger now fl hf s).2.trigger_direction = 1 := by
  simp only [LLLMImpl.gestureTwoFinger] at h ⊢
  split_ifs at h <;> simp_all

/-- When `gestureTwoFinger` moves `trigger_direction` to -1 from another
value, either the barrel check failed or the thumb was pulled back. -/
theorem gestureTwoFinger_reset (now : ℚ) (fl : List Finger)
    (hf : fl.length = 2) (s : SysState)
    (h : (LLLMImpl.gestureTwoFinger now fl hf s).2.trigger_direction = -1)
    (hs : s.trigger_direction ≠ -1) :
    barrelIntoScreen fl = false ∨ thumbPulledBack fl = true := by
  obtain ⟨f0, f1, rfl⟩ := List.length_eq_two.1 hf
  simp only [LLLMImpl.gestureTwoFinger] at h
  split_ifs at h with hb ht hg hp <;>
    simp_all [barrelIntoScreen, thumbPulledBack]

/-- When mode 2 moves `trigger_direction` to -1 from another value, the
evaluation saw one hand with one finger, or two fingers whose barrel no
longer points into the screen or whose thumb was pulled back. -/
theorem modeGestureDetection1_reset (now : ℚ) (s : SysState)
    (hands : List Hand)
    (h : (LLLMImpl.modeGestureDetection1 now s hands).2.trigger_direction = -1)
    (hs : s.trigger_direction ≠ -1) :
    ∃ hd, hands = [hd] ∧
      (hd.fingers.length = 1 ∨
       (hd.fingers.length = 2 ∧
        (barrelIntoScreen hd.fingers = false ∨
         thumbPulledBack hd.fingers = true))) := by
  simp only [LLLMImpl.modeGestureDetection1] at h
  split_ifs at h with h1 hf1 hf2 hf5
  · obtain ⟨a, ha⟩ := List.length_eq_one.1 h1
    subst ha
    exact ⟨a, rfl, Or.inl (by simpa using hf1)⟩
  · obtain ⟨a, ha⟩ := List.length_eq_one.1 h1
    subst ha
    refine ⟨a, rfl, Or.inr ⟨by simpa using hf2, ?_⟩⟩
    have h2 := gestureTwoFinger_reset now (([a].get ⟨0, by omega⟩).fingers)
      hf2 s (by simpa using h) hs
    simpa using h2
  · rw [gestureFiveFinger_state] at h
    simp at h
    exact absurd h hs
  · simp at h
    exact absurd h hs
  · simp at h
    exact absurd h hs

/-- A gunfire attempt from mode 2 needs a negative trigger and sets it
to 1. -/
theorem modeGestureDetection1_gunfire (now : ℚ) (s : SysState)
    (hands : List Hand)
    (h : HostAction.chatFormatted ChatMsg.lmGunfire ∈
      (LLLMImpl.modeGestureDetection1 now s hands).1.actions) :
    s.trigger_direction < 0 ∧
    (LLLMImpl.modeGestureDetection1 now s hands).2.trigger_direction = 1 := by
  simp only [LLLMImpl.modeGestureDetection1] at h ⊢
  split_ifs at h ⊢ with h1 hf1 hf2 hf5
  · have h2 : HostAction.chatFormatted ChatMsg.lmGunfire ∈
        (LLLMImpl.gestureOneFinger ((hands.get ⟨0, by omega⟩).fingers) hf1 s).1.actions :=
      by simpa using h
    simp only [LLLMImpl.gestureOneFinger] at h2
    split_ifs at h2 <;> simp_all
  · have h2 := gestureTwoFinger_gunfire now _ hf2 s (by simpa using h)
    exact ⟨h2.1, by simpa using h2.2⟩
  · have h2 : HostAction.chatFormatted ChatMsg.lmGunfire ∈
        (LLLMImpl.gestureFiveFinger now s).1.actions := by simpa using h
    simp only [LLLMImpl.gestureFiveFinger] at h2
    split_ifs at h2 <;> simp_all
  · simp at h
  · simp at h

/-- Mode 2 only keeps `trigger_direction`, resets it to -1, or fires it
to 1. -/
theorem modeGestureDetection1_trigger_values (now : ℚ) (s : SysState)
    (hands : List Hand) :
    (LLLMImpl.modeGestureDetection1 now s hands).2.trigger_direction =
        s.trigger_direction ∨
    (LLLMImpl.modeGestureDetection1 now s hands).2.trigger_direction = -1 ∨
    (LLLMImpl.modeGestureDetection1 now s hands).2.trigger_direction = 1 := by
  simp only [LLLMImpl.modeGestureDetection1]
  split_ifs with h1 hf1 hf2 hf5
  · rcases gestureOneFinger_trigger_values
        ((hands.get ⟨0, by omega⟩).fingers) hf1 s with hc | hc
    · exact Or.inl (by simpa using hc)
    · exact Or.inr (Or.inl (by simpa using hc))
  · rcases gestureTwoFinger_trigger_values now
        ((hands.get ⟨0, by omega⟩).fingers) hf2 s with hc | hc | hc
    · exact Or.inl (by simpa using hc)
    · exact Or.inr (Or.inl (by simpa using hc))
    · exact Or.inr (Or.inr (by simpa using hc))
  · rw [gestureFiveFinger_state]
    exact Or.inl rfl
  · exact Or.inl rfl
  · exact Or.inl rfl

/-- One evaluation only keeps `trigger_direction`, resets it to -1, or
fires it to 1. -/
theorem stepOn_trigger_values (i : StepInput) (s : SysState) :
    (stepOn i s).2.trigger_direction = s.trigger_direction ∨
    (stepOn i s).2.trigger_direction = -1 ∨
    (stepOn i s).2.trigger_direction = 1 := by
  unfold stepOn LLLMImpl.dispatchMode
  split_ifs
  · obtain ⟨hy, fl, yt, hA⟩ := modeFlyingControlTest_state i.now s i.hands
    rw [hA]
    exact Or.inl rfl
  · obtain ⟨ct, hA⟩ := modeStreamDataToSL_state i.now s i.hands
    rw [hA]
    exact Or.inl rfl
  · exact modeGestureDetection1_trigger_values i.now s i.hands
  · rw [modeMoveAndCamTest1_state]
    exact Or.inl rfl
  · rw [modeDumpDebugInfo_state]
    exact Or.inl rfl
  · exact Or.inl rfl

/-- A gunfire attempt needs a negative trigger and sets it to 1. -/
theorem stepOn_gunfire (i : StepInput) (s : SysState)
    (h : gunfireEventB s i = true) :
    s.trigger_direction < 0 ∧ (stepOn i s).2.trigger_direction = 1 := by
  simp only [gunfireEventB, decide_eq_true_eq] at h
  obtain ⟨hm, hd⟩ := h
  have hstep : stepOn i s = LLLMImpl.modeGestureDetection1 i.now s i.hands := by
    unfold stepOn LLLMImpl.dispatchMode
    rw [hm]
    simp
  rw [hstep] at hd ⊢
  exact modeGestureDetection1_gunfire i.now s i.hands hd

/-- An evaluation that moves `trigger_direction` to -1 from another value
is a mode 2 evaluation with a reset condition. -/
theorem stepOn_reset (i : StepInput) (s : SysState)
    (h : (stepOn i s).2.trigger_direction = -1)
    (hs : s.trigger_direction ≠ -1) :
    i.mode = 2 ∧ ∃ hd, i.hands = [hd] ∧
      (hd.fingers.length = 1 ∨
       (hd.fingers.length = 2 ∧
        (barrelIntoScreen hd.fingers = false ∨
         thumbPulledBack hd.fingers = true))) := by
  unfold stepOn LLLMImpl.dispatchMode at h
  split_ifs at h with m0 m1 m2 m3 m411
  · obtain ⟨hy, fl, yt, hA⟩ := modeFlyingControlTest_state i.now s i.hands
    rw [hA] at h
    exact absurd h hs
  · obtain ⟨ct, hA⟩ := modeStreamDataToSL_state i.now s i.hands
    rw [hA] at h
    exact absurd h hs
  · exact ⟨m2, modeGestureDetection1_reset i.now s i.hands h hs⟩
  · rw [modeMoveAndCamTest1_state] at h
    exact absurd h hs
  · rw [modeDumpDebugInfo_state] at h
    exact absurd h hs
  · exact absurd h hs

/-- If the trigger is nonnegative before a run and negative after it, the
run contains a reset. -/
theorem hasReset_of_trigger_sign (l : List StepInput) :
    ∀ s : SysState, 0 ≤ s.trigger_direction →
      (stateAfter s l).trigger_direction < 0 → hasReset s l = true := by
  induction l with
  | nil =>
    intro s hs h
    simp only [stateAfter] at h
    omega
  | cons i l ih =>
    intro s hs h
    simp only [stateAfter] at h
    simp only [hasReset, Bool.or_eq_true, decide_eq_true_eq]
    rcases stepOn_trigger_values i s with hv | hv | hv
    · exact Or.inr (ih (stepOn i s).2 (by omega) h)
    · exact Or.inl ⟨by omega, hv⟩
    · exact Or.inr (ih (stepOn i s).2 (by omega) h)

/-- C9: Gunfire attempts alternate with resets: the static
`trigger_direction` starts at -1, a gunfire chat attempt is made only when
it is negative (and sets it to 1), it returns to -1 only on a reset event
(a one-finger evaluation, or a two-finger evaluation whose barrel finger no
longer points into the screen or whose thumb is pulled back with velocity
x below -50 and z above 50), and two gunfire attempts never occur without
an intervening reset. -/
theorem C9_gunfire_alternates_with_resets :
    initialState.trigger_direction = -1 ∧
    (∀ i s, gunfireEventB s i = true →
      s.trigger_direction < 0 ∧ (stepOn i s).2.trigger_direction = 1) ∧
    (∀ i s, (stepOn i s).2.trigger_direction = -1 →
      s.trigger_direction = -1 ∨
      (i.mode = 2 ∧ ∃ hd, i.hands = [hd] ∧
        (hd.fingers.length = 1 ∨
         (hd.fingers.length = 2 ∧
          (barrelIntoScreen hd.fingers = false ∨
           thumbPulledBack hd.fingers = true))))) ∧
    (∀ s pre mid a b, gunfireEventB (stateAfter s pre) a = true →
      gunfireEventB (stateAfter s (pre ++ a :: mid)) b = true →
      hasReset (stepOn a (stateAfter s pre)).2 mid = true) := by
  refine ⟨rfl, stepOn_gunfire, ?_, ?_⟩
  · intro i s h
    by_cases hs : s.trigger_direction = -1
    · exact Or.inl hs
    · exact Or.inr (stepOn_reset i s h hs)
  · intro s pre mid a b ha hb
    have happ : stateAfter s (pre ++ a :: mid) =
        stateAfter (stepOn a (stateAfter s pre)).2 mid := by
      rw [stateAfter_append]
      rfl
    have h1 := (stepOn_gunfire a (stateAfter s pre) ha).2
    have h2 := (stepOn_gunfire b (stateAfter s (pre ++ a :: mid)) hb).1
    rw [happ] at h2
    exact hasReset_of_trigger_sign mid (stepOn a (stateAfter s pre)).2
      (by omega) (by omega)

/-- Witness for C9 at concrete inputs: a gunfire at time 0, a one-finger
reset at time 1, a second gunfire at time 2. -/
theorem C9_gunfire_alternates_with_resets_witness :
    (gunfireEventB { initialState with mChatMsgTimer := ⟨0⟩ }
        ⟨0, 2, [wGunHand]⟩ = true ∧
      { initialState with mChatMsgTimer := (⟨0⟩ : LLTimer) }.trigger_direction < 0 ∧
      (stepOn ⟨0, 2, [wGunHand]⟩
        { initialState with mChatMsgTimer := ⟨0⟩ }).2.trigger_direction = 1) ∧
    ((stepOn ⟨1, 2, [wOneFingerHand]⟩
        (stepOn ⟨0, 2, [wGunHand]⟩
          { initialState with mChatMsgTimer := ⟨0⟩ }).2).2.trigger_direction = -1 ∧
      ((stepOn ⟨0, 2, [wGunHand]⟩
          { initialState with mChatMsgTimer := ⟨0⟩ }).2.trigger_direction = -1 ∨
        ((⟨1, 2, [wOneFingerHand]⟩ : StepInput).mode = 2 ∧
          ∃ hd, (⟨1, 2, [wOneFingerHand]⟩ : StepInput).hands = [hd] ∧
            (hd.fingers.length = 1 ∨
             (hd.fingers.length = 2 ∧
              (barrelIntoScreen hd.fingers = false ∨
               thumbPulledBack hd.fingers = true)))))) ∧
    (gunfireEventB
        (stateAfter { initialState with mChatMsgTimer := ⟨0⟩ }
          ([] ++ ⟨0, 2, [wGunHand]⟩ :: [⟨1, 2, [wOneFingerHand]⟩]))
        ⟨2, 2, [wGunHand]⟩ = true ∧
      hasReset (stepOn ⟨0, 2, [wGunHand]⟩
          (stateAfter { initialState with mChatMsgTimer := ⟨0⟩ } [])).2
        [⟨1, 2, [wOneFingerHand]⟩] = true) := by
  refine ⟨⟨?_, ?_⟩, ⟨?_, ?_⟩, ⟨?_, ?_⟩⟩
  · with_unfolding_all decide
  · exact C9_gunfire_alternates_with_resets.2.1 ⟨0, 2, [wGunHand]⟩
      { initialState with mChatMsgTimer := ⟨0⟩ } (by with_unfolding_all decide)
  · with_unfolding_all decide
  · exact C9_gunfire_alternates_with_resets.2.2.1 ⟨1, 2, [wOneFingerHand]⟩
      (stepOn ⟨0, 2, [wGunHand]⟩
        { initialState with mChatMsgTimer := ⟨0⟩ }).2
      (by with_unfolding_all decide)
  · with_unfolding_all decide
  · exact C9_gunfire_alternates_with_resets.2.2.2
      { initialState with mChatMsgTimer := ⟨0⟩ } [] [⟨1, 2, [wOneFingerHand]⟩]
      ⟨0, 2, [wGunHand]⟩ ⟨2, 2, [wGunHand]⟩
      (by with_unfolding_all decide) (by with_unfolding_all decide)

/-- The dispatch never touches the frame-available flag. -/
theorem dispatchMode_frameAvailable (now : ℚ) (mode : Int) (s : SysState)
    (hands : List Hand) :
    ((LLLMImpl.dispatchMode now mode s hands).2).mFrameAvailable =
      s.mFrameAvailable := by
  unfold LLLMImpl.dispatchMode
  split_ifs
  · obtain ⟨hy, fl, yt, hA⟩ := modeFlyingControlTest_state now s hands
    rw [hA]
  · obtain ⟨ct, hA⟩ := modeStreamDataToSL_state now s hands
    rw [hA]
  · obtain ⟨ct, gt, td, ln, hA⟩ := modeGestureDetection1_state now s hands
    rw [hA]
  · rw [modeMoveAndCamTest1_state]
  · rw [modeDumpDebugInfo_state]
  · rfl

/-- C1: For every device frame processed by `stepFrame` (controller
non-null, frame available, connected), exactly one of the five mode
functions is invoked, selected by the `LeapmotionTestMode` setting
(0, 1, 2, 3, 411), and any other setting invokes no mode function; the
selection cases are mutually exclusive. -/
theorem C1_stepFrame_mode_dispatch :
    ∀ (now : ℚ) (mode : Int) (s : SysState) (frame : Frame),
      s.mLMController = true ∧ s.mFrameAvailable = true ∧ s.mLMConnected = true →
      (mode = 0 → LLLMImpl.stepFrame now mode s frame =
        LLLMImpl.modeFlyingControlTest now { s with mFrameAvailable := false }
          frame.hands) ∧
      (mode = 1 → LLLMImpl.stepFrame now mode s frame =
        LLLMImpl.modeStreamDataToSL now { s with mFrameAvailable := false }
          frame.hands) ∧
      (mode = 2 → LLLMImpl.stepFrame now mode s frame =
        LLLMImpl.modeGestureDetection1 now { s with mFrameAvailable := false }
          frame.hands) ∧
      (mode = 3 → LLLMImpl.stepFrame now mode s frame =
        LLLMImpl.modeMoveAndCamTest1 { s with mFrameAvailable := false }
          frame.hands) ∧
      (mode = 411 → LLLMImpl.stepFrame now mode s frame =
        LLLMImpl.modeDumpDebugInfo { s with mFrameAvailable := false }
          frame.hands) ∧
      (mode ≠ 0 ∧ mode ≠ 1 ∧ mode ≠ 2 ∧ mode ≠ 3 ∧ mode ≠ 411 →
        LLLMImpl.stepFrame now mode s frame =
          (⟨[], [], []⟩, { s with mFrameAvailable := false })) := by
  intro now mode s frame hg
  unfold LLLMImpl.stepFrame LLLMImpl.dispatchMode
  rw [if_pos hg]
  refine ⟨?_, ?_, ?_, ?_, ?_, ?_⟩ <;> intro hm
  · subst hm
    simp
  · subst hm
    norm_num
  · subst hm
    norm_num
  · subst hm
    norm_num
  · subst hm
    norm_num
  · obtain ⟨h0, h1, h2, h3, h411⟩ := hm
    simp [h0, h1, h2, h3, h411]

/-- Witness for C1 at a concrete gated state and mode 2. -/
theorem C1_stepFrame_mode_dispatch_witness :
    (({ initialState with mLMConnected := true, mFrameAvailable := true }
        : SysState).mLMController = true ∧
     ({ initialState with mLMConnected := true, mFrameAvailable := true }
        : SysState).mFrameAvailable = true ∧
     ({ initialState with mLMConnected := true, mFrameAvailable := true }
        : SysState).mLMConnected = true) ∧
    ((2 : Int) = 2 →
      LLLMImpl.stepFrame 0 2
        { initialState with mLMConnected := true, mFrameAvailable := true }
        ⟨7, [wFiveHand]⟩ =
      LLLMImpl.modeGestureDetection1 0
        { ({ initialState with mLMConnected := true, mFrameAvailable := true }
            : SysState) with mFrameAvailable := false }
        (⟨7, [wFiveHand]⟩ : Frame).hands) := by
  constructor
  · exact ⟨rfl, rfl, rfl⟩
  · exact (C1_stepFrame_mode_dispatch 0 2
      { initialState with mLMConnected := true, mFrameAvailable := true }
      ⟨7, [wFiveHand]⟩ ⟨rfl, rfl, rfl⟩).2.2.1

/-- C2: The frame-available flag is a single producer/consumer boolean:
`onFrame` raises it and records the id exactly when connected with a new
frame id (otherwise both fields are unchanged), and `stepFrame` does
nothing without the flag, clears it before dispatching, and leaves it
cleared, so each notification is consumed at most once. -/
theorem C2_frame_flag_producer_consumer :
    (∀ (s : SysState) (fr : Frame),
      s.mLMConnected = true ∧ fr.id ≠ s.mCurrentFrameID →
      LLLMImpl.onFrame s fr =
        { s with mCurrentFrameID := fr.id, mFrameAvailable := true }) ∧
    (∀ (s : SysState) (fr : Frame),
      ¬(s.mLMConnected = true ∧ fr.id ≠ s.mCurrentFrameID) →
      LLLMImpl.onFrame s fr = s) ∧
    (∀ (now : ℚ) (mode : Int) (s : SysState) (fr : Frame),
      s.mFrameAvailable = false →
      LLLMImpl.stepFrame now mode s fr = (⟨[], [], []⟩, s)) ∧
    (∀ (now : ℚ) (mode : Int) (s : SysState) (fr : Frame),
      s.mLMController = true ∧ s.mFrameAvailable = true ∧ s.mLMConnected = true →
      LLLMImpl.stepFrame now mode s fr =
        LLLMImpl.dispatchMode now mode { s with mFrameAvailable := false }
          fr.hands ∧
      ((LLLMImpl.stepFrame now mode s fr).2).mFrameAvailable = false) := by
  refine ⟨?_, ?_, ?_, ?_⟩
  · intro s fr h
    unfold LLLMImpl.onFrame
    rw [if_pos h.1, if_pos h.2]
  · intro s fr h
    unfold LLLMImpl.onFrame
    by_cases hc : s.mLMConnected = true
    · rw [if_pos hc]
      rw [if_neg (fun hid => h ⟨hc, hid⟩)]
    · rw [if_neg hc]
  · intro now mode s fr h
    unfold LLLMImpl.stepFrame
    rw [if_neg (by simp [h])]
  · intro now mode s fr hg
    have h1 : LLLMImpl.stepFrame now mode s fr =
        LLLMImpl.dispatchMode now mode { s with mFrameAvailable := false }
          fr.hands := by
      unfold LLLMImpl.stepFrame
      rw [if_pos hg]
    refine ⟨h1, ?_⟩
    rw [h1, dispatchMode_frameAvailable]

/-- Witness for C2 at concrete states and frames. -/
theorem C2_frame_flag_producer_consumer_witness :
    (({ initialState with mLMConnected := true } : SysState).mLMConnected = true ∧
      (⟨7, []⟩ : Frame).id ≠
        ({ initialState with mLMConnected := true } : SysState).mCurrentFrameID ∧
      LLLMImpl.onFrame { initialState with mLMConnected := true } ⟨7, []⟩ =
        { ({ initialState with mLMConnected := true } : SysState) with
          mCurrentFrameID := (7 : Int), mFrameAvailable := true }) ∧
    (¬(initialState.mLMConnected = true ∧
        (⟨7, []⟩ : Frame).id ≠ initialState.mCurrentFrameID) ∧
      LLLMImpl.onFrame initialState ⟨7, []⟩ = initialState) ∧
    (initialState.mFrameAvailable = false ∧
      LLLMImpl.stepFrame 0 2 initialState ⟨7, []⟩ = (⟨[], [], []⟩, initialState)) ∧
    (((LLLMImpl.stepFrame 0 2
        { initialState with mLMConnected := true, mFrameAvailable := true }
        ⟨7, [wFiveHand]⟩).2).mFrameAvailable = false) := by
  refine ⟨⟨by decide, by decide, ?_⟩, ⟨by decide, ?_⟩, ⟨rfl, ?_⟩, ?_⟩
  · exact C2_frame_flag_producer_consumer.1
      { initialState with mLMConnected := true } ⟨7, []⟩ ⟨by decide, by decide⟩
  · exact C2_frame_flag_producer_consumer.2.1 initialState ⟨7, []⟩ (by decide)
  · exact C2_frame_flag_producer_consumer.2.2.1 0 2 initialState ⟨7, []⟩ rfl
  · exact (C2_frame_flag_producer_consumer.2.2.2 0 2
      { initialState with mLMConnected := true, mFrameAvailable := true }
      ⟨7, [wFiveHand]⟩ ⟨rfl, rfl, rfl⟩).2

/-- C4: A disconnect event only flips a boolean: `onDisconnect` sets
`mLMConnected` to false, leaves every other field unchanged, and performs
nothing but a log line (no avatar, camera, chat, or gesture action). -/
theorem C4_disconnect_only_flips_boolean :
    ∀ s : SysState,
      (LLLMImpl.onDisconnect s).2.mLMConnected = false ∧
      (LLLMImpl.onDisconnect s).2.mFrameAvailable = s.mFrameAvailable ∧
      (LLLMImpl.onDisconnect s).2.mCurrentFrameID = s.mCurrentFrameID ∧
      (LLLMImpl.onDisconnect s).2.mYawTimer = s.mYawTimer ∧
      (LLLMImpl.onDisconnect s).2.mChatMsgTimer = s.mChatMsgTimer ∧
      (LLLMImpl.onDisconnect s).2.mGestureTimer = s.mGestureTimer ∧
      (LLLMImpl.onDisconnect s).2.mLMController = s.mLMController ∧
      (LLLMImpl.onDisconnect s).2.sLMFlyingHysteresis = s.sLMFlyingHysteresis ∧
      (LLLMImpl.onDisconnect s).2.trigger_direction = s.trigger_direction ∧
      (LLLMImpl.onDisconnect s).2.last_num_fingers = s.last_num_fingers ∧
      (LLLMImpl.onDisconnect s).2.agentFlying = s.agentFlying ∧
      (LLLMImpl.onDisconnect s).1.all HostAction.isLog = true := by
  intro s
  simp [LLLMImpl.onDisconnect, HostAction.isLog]

/-- Branch `gestureOneFinger` sends no chat. -/
theorem gestureOneFinger_no_chatSend (fl : List Finger) (hf : fl.length = 1)
    (s : SysState) :
    (LLLMImpl.gestureOneFinger fl hf s).1.actions.all
      (fun a => !a.isChatSend) = true := by
  simp only [LLLMImpl.gestureOneFinger]
  split_ifs <;> simp [HostAction.isChatSend]

/-- Branch `gestureTwoFinger` sends no chat (the gunfire send is commented
out; only the formatted message is built). -/
theorem gestureTwoFinger_no_chatSend (now : ℚ) (fl : List Finger)
    (hf : fl.length = 2) (s : SysState) :
    (LLLMImpl.gestureTwoFinger now fl hf s).1.actions.all
      (fun a => !a.isChatSend) = true := by
  simp only [LLLMImpl.gestureTwoFinger]
  split_ifs <;> simp [HostAction.isChatSend]

/-- Branch `gestureFiveFinger` sends no chat. -/
theorem gestureFiveFinger_no_chatSend (now : ℚ) (s : SysState) :
    (LLLMImpl.gestureFiveFinger now s).1.actions.all
      (fun a => !a.isChatSend) = true := by
  simp only [LLLMImpl.gestureFiveFinger]
  split_ifs <;> simp [HostAction.isChatSend]

/-- C5: The outbound chat channel is inert: `modeStreamDataToSL` builds the
telemetry chat string but performs no chat send (the call is commented
out), and its only state effect is resetting the chat-message timer when
exactly one hand is present and that timer has expired; the gunfire send in
`modeGestureDetection1` is likewise commented out and sends nothing. -/
theorem C5_chat_channel_inert :
    ∀ (now : ℚ) (s : SysState) (hands : List Hand),
      ((LLLMImpl.modeStreamDataToSL now s hands).1.actions.all
        (fun a => !a.isChatSend) = true) ∧
      ((LLLMImpl.modeGestureDetection1 now s hands).1.actions.all
        (fun a => !a.isChatSend) = true) ∧
      (LLLMImpl.modeStreamDataToSL now s hands).2 =
        (if hands.length = 1 ∧ s.mChatMsgTimer.expiry ≤ now then
          { s with mChatMsgTimer := ⟨now + LLLEAP_CHAT_MSG_INTERVAL⟩ }
         else s) := by
  intro now s hands
  refine ⟨?_, ?_, ?_⟩
  · simp only [LLLMImpl.modeStreamDataToSL]
    split_ifs <;> simp [HostAction.isChatSend]
  · simp only [LLLMImpl.modeGestureDetection1]
    split_ifs with h1 hf1 hf2 hf5
    · simpa using gestureOneFinger_no_chatSend _ hf1 s
    · simpa using gestureTwoFinger_no_chatSend now _ hf2 s
    · simpa using gestureFiveFinger_no_chatSend now s
    · simp
    · simp
  · simp only [LLLMImpl.modeStreamDataToSL, LLTimer.check_fst,
      LLTimer.check_snd]
    split_ifs <;> simp_all

/-- C10: The public wrapper forwards to the implementation only when the
implementation object exists and the host startup state is STATE_STARTED;
any other startup state (or a null implementation) does nothing, so no
device data affects host state before startup is complete. -/
theorem C10_wrapper_gates_on_startup :
    (∀ (mc : Bool) (st : EStartupState) (now : ℚ) (mode : Int) (s : SysState)
        (fr : Frame), st ≠ EStartupState.STATE_STARTED →
      LLLeapMotionController.stepFrame mc st now mode s fr = (⟨[], [], []⟩, s)) ∧
    (∀ (st : EStartupState) (now : ℚ) (mode : Int) (s : SysState) (fr : Frame),
      LLLeapMotionController.stepFrame false st now mode s fr =
        (⟨[], [], []⟩, s)) ∧
    (∀ (now : ℚ) (mode : Int) (s : SysState) (fr : Frame),
      LLLeapMotionController.stepFrame true EStartupState.STATE_STARTED now
        mode s fr = LLLMImpl.stepFrame now mode s fr) := by
  refine ⟨?_, ?_, ?_⟩
  · intro mc st now mode s fr hst
    unfold LLLeapMotionController.stepFrame
    rw [if_neg (fun hg => hst hg.2.symm)]
  · intro st now mode s fr
    unfold LLLeapMotionController.stepFrame
    rw [if_neg (fun hg => by simpa using hg.1)]
  · intro now mode s fr
    unfold LLLeapMotionController.stepFrame
    rw [if_pos ⟨rfl, rfl⟩]

/-- Witness for C10 at a concrete non-started state. -/
theorem C10_wrapper_gates_on_startup_witness :
    (EStartupState.STATE_LOGIN_SHOW ≠ EStartupState.STATE_STARTED ∧
      LLLeapMotionController.stepFrame true EStartupState.STATE_LOGIN_SHOW 0 2
        { initialState with mLMConnected := true, mFrameAvailable := true }
        ⟨7, [wFiveHand]⟩ =
      (⟨[], [], []⟩,
        ({ initialState with mLMConnected := true, mFrameAvailable := true }
          : SysState))) := by
  exact ⟨by decide, C10_wrapper_gates_on_startup.1 true
    EStartupState.STATE_LOGIN_SHOW 0 2
    { initialState with mLMConnected := true, mFrameAvailable := true }
    ⟨7, [wFiveHand]⟩ (by decide)⟩

/-- Branch `gestureOneFinger` subscripts only in bounds and divides
nothing. -/
theorem gestureOneFinger_effects (fl : List Finger) (hf : fl.length = 1)
    (s : SysState) :
    accessesOK (LLLMImpl.gestureOneFinger fl hf s).1 = true ∧
    (LLLMImpl.gestureOneFinger fl hf s).1.divs = [] := by
  simp only [LLLMImpl.gestureOneFinger]
  split_ifs <;> simp_all [accessesOK]

/-- Branch `gestureTwoFinger` subscripts only in bounds and divides
nothing. -/
theorem gestureTwoFinger_effects (now : ℚ) (fl : List Finger)
    (hf : fl.length = 2) (s : SysState) :
    accessesOK (LLLMImpl.gestureTwoFinger now fl hf s).1 = true ∧
    (LLLMImpl.gestureTwoFinger now fl hf s).1.divs = [] := by
  simp only [LLLMImpl.gestureTwoFinger]
  split_ifs <;> simp_all [accessesOK]

/-- Branch `gestureFiveFinger` subscripts nothing and divides nothing. -/
theorem gestureFiveFinger_effects (now : ℚ) (s : SysState) :
    accessesOK (LLLMImpl.gestureFiveFinger now s).1 = true ∧
    (LLLMImpl.gestureFiveFinger now s).1.divs = [] := by
  simp only [LLLMImpl.gestureFiveFinger]
  split_ifs <;> simp_all [accessesOK]

/-- C3 counterexample: with one hand that has zero fingers,
`modeMoveAndCamTest1` executes its averaging divisions with divisor 0 (the
average is computed before any finger-count check), so a division is
executed without a count precondition making it well-defined. -/
theorem C3_counterexample :
    (0 : ℚ) ∈ (LLLMImpl.modeMoveAndCamTest1 initialState [wNoFingerHand]).1.divs := by
  with_unfolding_all decide

/-- C3 (amended): in every mode function all list subscripts are guarded by
count checks and hence in bounds; modes 0, 1 and 2 execute no division, and
`modeDumpDebugInfo` divides only by a finger count checked to be at least
one.  `modeMoveAndCamTest1` however computes the average tip position
before its count checks, dividing by zero when the single hand has no
fingers; in exactly that case the quotient is unused: the mode emits no
action and changes no state. -/
theorem C3_count_checked_accesses :
    (∀ (now : ℚ) (s : SysState) (hands : List Hand),
      accessesOK (LLLMImpl.modeFlyingControlTest now s hands).1 = true ∧
      accessesOK (LLLMImpl.modeStreamDataToSL now s hands).1 = true ∧
      accessesOK (LLLMImpl.modeGestureDetection1 now s hands).1 = true ∧
      (LLLMImpl.modeFlyingControlTest now s hands).1.divs = [] ∧
      (LLLMImpl.modeStreamDataToSL now s hands).1.divs = [] ∧
      (LLLMImpl.modeGestureDetection1 now s hands).1.divs = []) ∧
    (∀ (s : SysState) (hands : List Hand),
      accessesOK (LLLMImpl.modeMoveAndCamTest1 s hands).1 = true ∧
      accessesOK (LLLMImpl.modeDumpDebugInfo s hands).1 = true ∧
      (∀ d ∈ (LLLMImpl.modeDumpDebugInfo s hands).1.divs, d ≠ 0) ∧
      ((0 : ℚ) ∈ (LLLMImpl.modeMoveAndCamTest1 s hands).1.divs →
        (LLLMImpl.modeMoveAndCamTest1 s hands).1.actions = [] ∧
        (LLLMImpl.modeMoveAndCamTest1 s hands).2 = s)) := by
  constructor
  · intro now s hands
    refine ⟨?_, ?_, ?_, ?_, ?_, ?_⟩
    · simp only [LLLMImpl.modeFlyingControlTest]
      split_ifs <;> simp_all [accessesOK]
    · simp only [LLLMImpl.modeStreamDataToSL]
      split_ifs <;> simp_all [accessesOK]
    · simp only [LLLMImpl.modeGestureDetection1]
      split_ifs with h1 hf1 hf2 hf5
      · have h2 := gestureOneFinger_effects _ hf1 s
        simp_all [accessesOK]
      · have h2 := gestureTwoFinger_effects now _ hf2 s
        simp_all [accessesOK]
      · have h2 := gestureFiveFinger_effects now s
        simp_all [accessesOK]
      · simp_all [accessesOK]
      · simp [accessesOK]
    · simp only [LLLMImpl.modeFlyingControlTest]
      split_ifs <;> simp
    · simp only [LLLMImpl.modeStreamDataToSL]
      split_ifs <;> simp
    · simp only [LLLMImpl.modeGestureDetection1]
      split_ifs with h1 hf1 hf2 hf5
      · have h2 := gestureOneFinger_effects _ hf1 s
        simp_all
      · have h2 := gestureTwoFinger_effects now _ hf2 s
        simp_all
      · have h2 := gestureFiveFinger_effects now s
        simp_all
      · simp
      · simp
  · intro s hands
    refine ⟨?_, ?_, ?_, ?_⟩
    · simp only [LLLMImpl.modeMoveAndCamTest1]
      split_ifs <;>
        simp_all [accessesOK, List.all_eq_true, List.mem_map, List.mem_range]
    · simp only [LLLMImpl.modeDumpDebugInfo]
      split_ifs <;>
        simp_all [accessesOK, List.all_eq_true, List.mem_map, List.mem_range]
    · simp only [LLLMImpl.modeDumpDebugInfo]
      split_ifs with h1 hn
      · intro d hd
        simp only [ModeEffects.divs] at hd
        simp at hd hn
        rw [hd]
        have hlen : hands[0].fingers.length ≠ 0 := by omega
        exact_mod_cast hlen
      · intro d hd
        simp at hd
      · intro d hd
        simp at hd
    · simp only [LLLMImpl.modeMoveAndCamTest1]
      split_ifs <;> intro hd <;>
        first
          | exact ⟨rfl, rfl⟩
          | (exfalso
             rcases List.mem_append.1 hd with hd2 | hd2
             · simp_all
             · exact (camOrbit_actions _).2.2.2 hd2)
          | simp_all

/-- Witness for C3: the dump mode's divisors are the nonzero finger count,
and the zero-finger hand drives the division-by-zero case of
`modeMoveAndCamTest1`, which then emits nothing and changes nothing. -/
theorem C3_count_checked_accesses_witness :
    ((5 : ℚ) ∈ (LLLMImpl.modeDumpDebugInfo initialState [wFiveHand]).1.divs ∧
      (5 : ℚ) ≠ 0) ∧
    ((0 : ℚ) ∈ (LLLMImpl.modeMoveAndCamTest1 initialState [wNoFingerHand]).1.divs ∧
      (LLLMImpl.modeMoveAndCamTest1 initialState [wNoFingerHand]).1.actions = [] ∧
      (LLLMImpl.modeMoveAndCamTest1 initialState [wNoFingerHand]).2 =
        initialState) := by
  refine ⟨⟨?_, ?_⟩, ?_, ?_, ?_⟩
  · with_unfolding_all decide
  · exact (C3_count_checked_accesses.2 initialState [wFiveHand]).2.2.1 5
      (by with_unfolding_all decide)
  · with_unfolding_all decide
  · exact ((C3_count_checked_accesses.2 initialState [wNoFingerHand]).2.2.2
      (by with_unfolding_all decide)).1
  · exact ((C3_count_checked_accesses.2 initialState [wNoFingerHand]).2.2.2
      (by with_unfolding_all decide)).2
